import Mathlib

/-!
# ldapclient: the session driver of `ldapclient.c`

A shallow embedding of `ldapc_connect`, `ldapc_search`, `ldapc_disconnect` and
the tail of `main` (from the call of `ldapc_connect` on), followed by theorems
about them.

The protocol library (`aldap_*`), the TLS library and the socket calls are not
part of `ldapclient.c`.  Their outcomes are inputs of the model:

* `Env` fixes what the calls that can fail return;
* the `inbox` is the list of values the successive calls of `aldap_parse`
  return (`none` is `NULL`; once the list is used up `aldap_parse` returns
  `NULL`).

Every function returns, besides its C return value, the calls it made and the
text it printed, in order (`Ret.trace`).
-/

namespace Ldapclient

/-! ## Constants -/

/-- Session flag `F_STARTTLS`. -/
def F_STARTTLS : Nat := 0x01

/-- Session flag `F_TLS`. -/
def F_TLS : Nat := 0x02

/-- Session flag `F_NEEDAUTH`. -/
def F_NEEDAUTH : Nat := 0x04

/-- Modelled from the spec: `aldap.h` is not among the sources; the result
code "success" (RFC 4511 `success (0)`). -/
def LDAP_SUCCESS : Int := 0

/-- Modelled from the spec: `aldap.h` is not among the sources; the result
code "invalid-credentials" (RFC 4511 `invalidCredentials (49)`). -/
def LDAP_INVALID_CREDENTIALS : Int := 49

/-- Modelled from the spec: `aldap.h` is not among the sources; the message
type of a search-entry message (RFC 4511 application tag 4). -/
def LDAP_RES_SEARCH_ENTRY : Int := 4

/-- Modelled from the spec: `aldap.h` is not among the sources; the message
type of a terminal search-result message (RFC 4511 application tag 5). -/
def LDAP_RES_SEARCH_RESULT : Int := 5

/-! ## Data model -/

/-- Modelled from the spec: `struct aldap_page_control` of `aldap.h` (not among
the sources), the continuation token of a paged search.  `cookie_len` is the
length of `cookie`. -/
structure aldap_page_control where
  cookie : List Nat
  deriving DecidableEq, Repr

/-- The field `cookie_len` of a page control. -/
def aldap_page_control.cookie_len (pg : aldap_page_control) : Nat :=
  pg.cookie.length

/-- Modelled from the spec: `struct aldap_message` of `aldap.h` (not among the
sources), as far as `ldapclient.c` reads it: the fields `msgid`,
`message_type` and `page`, and what the accessors `aldap_get_resultcode`
(`rescode`), `aldap_get_dn` (`dn`, `none` for `NULL`) and
`aldap_first_attr`/`aldap_next_attr` (`attrs`, the attributes with their
values in the order the server sent them) return. -/
structure aldap_message where
  msgid : Int
  message_type : Int
  rescode : Int
  page : Option aldap_page_control
  dn : Option String
  attrs : List (String × List String)
  deriving DecidableEq, Repr

/-- Modelled from the spec: `struct aldap` of `aldap.h` (not among the
sources), as far as `ldapclient.c` reads it: the identifier of the request
sent last. -/
structure aldap where
  msgid : Int
  deriving DecidableEq, Repr

/-- The session `struct ldapc`; `ldap_al` is `none` for `NULL`. -/
structure ldapc where
  ldap_al : Option aldap
  ldap_host : Option String
  ldap_port : Option String
  ldap_capath : Option String
  ldap_binddn : Option String
  ldap_secret : Option String
  ldap_flags : Nat
  deriving DecidableEq, Repr

/-- The search parameters `struct ldapc_search` (`ls_scope` as the number of
the scope). -/
structure struct_ldapc_search where
  ls_basedn : String
  ls_filter : String
  ls_scope : Nat
  ls_attr : Option (List String)
  deriving DecidableEq, Repr

/-- The three places where `ldapclient.c` calls `aldap_parse`: line 342
(STARTTLS response), line 386 (bind response), line 232 (search loop). -/
inductive Site where
  | starttls
  | bind
  | search
  deriving DecidableEq, Repr

/-- What a run does, in order: the library calls with their outcome, and the
text printed.  `aldap_parse site id r` is a call of `aldap_parse` at `site`
that returned `r` while the handle's `msgid` was `id`; `entry m` marks that
the print block of lines 265-280 is entered for the message `m`. -/
inductive Event where
  | aldap_init (ok : Bool)
  | aldap_req_starttls (ok : Bool)
  | tls_config_new (ok : Bool)
  | tls_config_set_ca_file (ok : Bool)
  | aldap_tls (ok : Bool)
  | aldap_bind (ok : Bool)
  | aldap_search (pg : Option aldap_page_control) (ok : Bool)
  | aldap_parse (site : Site) (id : Int) (r : Option aldap_message)
  | entry (m : aldap_message)
  | printf (s : String)
  | aldap_close
  deriving DecidableEq, Repr

/-- One candidate address of `getaddrinfo`, with what `socket` and `connect`
return for it. -/
structure addrinfo where
  socket : Int
  connect : Int
  deriving DecidableEq, Repr

/-- The outcomes of the calls that leave `ldapclient.c`.  `request id` tells
whether the request that carries the message identifier `id` can be written
(`false`: the request function returns -1). -/
structure Env where
  getaddrinfo : Int
  res0 : List addrinfo
  aldap_init : Bool
  request : Int → Bool
  tls_config_new : Bool
  tls_config_set_ca_file : Bool
  aldap_tls : Int
  pledge : Bool

/-- What `ldapc_connect` and `ldapc_search` leave behind: the C return value,
the session handle `ldap->ldap_al`, the part of the inbox not yet read, and
the events of the call. -/
structure Ret where
  ret : Int
  ldap_al : Option aldap
  inbox : List (Option aldap_message)
  trace : List Event
  deriving DecidableEq, Repr

/-- The events `evs` happen, then those of `r`. -/
def Ret.after (evs : List Event) (r : Ret) : Ret :=
  { r with trace := evs ++ r.trace }

/-- How the process ends: the exit status and the events of the whole run. -/
structure Exit where
  status : Int
  trace : List Event
  deriving DecidableEq, Repr

/-! ## Reading a trace -/

/-- The text written to standard output: the `printf` events, concatenated. -/
def stdout : List Event → String
  | [] => ""
  | Event.printf s :: tr => s ++ stdout tr
  | _ :: tr => stdout tr

/-- The entries written: the messages for which the print block was entered. -/
def written : List Event → List aldap_message
  | [] => []
  | Event.entry m :: tr => m :: written tr
  | _ :: tr => written tr

/-- The search requests issued (calls of `aldap_search`), each with the page
control it carried and whether it was written. -/
def searches : List Event → List (Option aldap_page_control × Bool)
  | [] => []
  | Event.aldap_search pg ok :: tr => (pg, ok) :: searches tr
  | _ :: tr => searches tr

/-- The number of calls of `aldap_close`. -/
def closes : List Event → Nat
  | [] => 0
  | Event.aldap_close :: tr => closes tr + 1
  | _ :: tr => closes tr

/-! ## The protocol library, as `ldapclient.c` uses it -/

/-- Modelled from the spec: `aldap_parse` of `aldap.c` (not among the
sources), "read_next_message(handle) -> Message | none": the next value of the
inbox, `NULL` once it is used up. -/
def aldap_parse (inbox : List (Option aldap_message)) :
    Option aldap_message × List (Option aldap_message) :=
  match inbox with
  | [] => (none, [])
  | r :: rest => (r, rest)

/-- Modelled from the spec: the request functions of `aldap.c` (not among the
sources: `aldap_req_starttls`, `aldap_bind`, `aldap_search`).  A request takes
the next message identifier, which becomes the handle's `msgid`; the first
component is `false` when the function returns -1. -/
def aldap_request (env : Env) (al : aldap) : Bool × aldap :=
  (env.request (al.msgid + 1), { msgid := al.msgid + 1 })

/-- Modelled from the spec: `aldap_get_resultcode` of `aldap.c` (not among the
sources), "get_result_code(Message) -> code". -/
def aldap_get_resultcode (m : aldap_message) : Int := m.rescode

/-- Modelled from the spec: `aldap_count_attrs` of `aldap.c` (not among the
sources): the number of attributes the message carries. -/
def aldap_count_attrs (m : aldap_message) : Int := m.attrs.length

/-- Modelled from the spec: `aldap_get_dn` of `aldap.c` (not among the
sources), "get_distinguished_name(Message) -> string", `none` for `NULL`. -/
def aldap_get_dn (m : aldap_message) : Option String := m.dn

/-! ## `ldapc_disconnect` -/

/-- `ldapc_disconnect` (lines 409-416): nothing when the handle is `NULL`,
else `aldap_close` and the handle becomes `NULL`.  Returns the new handle and
the events. -/
def ldapc_disconnect (ldap_al : Option aldap) : Option aldap × List Event :=
  match ldap_al with
  | none => (none, [])
  | some _ => (none, [Event.aldap_close])

/-- The label `fail:` of `ldapc_search` and `ldapc_connect`:
`ldapc_disconnect(ldap); return (-1);` after the events `tr`. -/
def fail (al : aldap) (inbox : List (Option aldap_message)) (tr : List Event) : Ret :=
  { ret := -1
    ldap_al := (ldapc_disconnect (some al)).1
    inbox := inbox
    trace := tr ++ (ldapc_disconnect (some al)).2 }

/-! ## `ldapc_search` -/

/-- The page control kept at a terminal search-result message (lines 244-247):
`m->page` when it is not `NULL` and its `cookie_len` is not 0, else `NULL`. -/
def next_page (m : aldap_message) : Option aldap_page_control :=
  match m.page with
  | some pg => if pg.cookie_len ≠ 0 then some pg else none
  | none => none

/-- The two nested `for` loops of lines 272-280: one `printf("%s: %s\n")` per
value, attributes and values in the order of the message. -/
def print_attrs : List (String × List String) → List Event
  | [] => []
  | (outkey, outvalues) :: rest =>
      outvalues.map (fun v => Event.printf (outkey ++ ": " ++ v ++ "\n")) ++ print_attrs rest

/-- Lines 265-270: a blank line unless `dn` is still `NULL`, in which case `dn`
becomes the base DN; then the `dn:` line unless `strcmp(dn, searchdn)` is 0.
Returns the new value of `dn` and the events. -/
def print_dn (ls : struct_ldapc_search) (dn : Option String) (searchdn : String) :
    String × List Event :=
  let sep := if dn ≠ none then [Event.printf "\n"] else []
  let dn1 := match dn with
    | some d => d
    | none => ls.ls_basedn
  let line := if dn1 ≠ searchdn then [Event.printf ("dn: " ++ searchdn ++ "\n")] else []
  (dn1, sep ++ line)

/-- The `while` loop of `ldapc_search` (lines 232-285) together with the
`do ... while (pg != NULL)` around it: when the `while` loop is left with a
page control, the next turn of the `do` loop sends the next request (lines
220-230) and the `while` loop goes on with the rest of the inbox.  The head
of the inbox is what `aldap_parse` returns.  `al` is the handle
`ldap->ldap_al`, `dn` the local variable `dn`. -/
def ldapc_search_loop (env : Env) (ls : struct_ldapc_search) :
    List (Option aldap_message) → aldap → Option String → Ret
  | [], al, _ =>
      -- aldap_parse returns NULL; pg is NULL, so the do loop ends: return (0)
      { ret := 0, ldap_al := some al, inbox := [],
        trace := [Event.aldap_parse Site.search al.msgid none] }
  | none :: rest, al, _ =>
      { ret := 0, ldap_al := some al, inbox := rest,
        trace := [Event.aldap_parse Site.search al.msgid none] }
  | some m :: rest, al, dn =>
      let ev := Event.aldap_parse Site.search al.msgid (some m)
      if al.msgid ≠ m.msgid then
        fail al rest [ev]
      else if aldap_get_resultcode m ≠ LDAP_SUCCESS then
        -- log_warnx; break: pg is NULL, so the do loop ends: return (0)
        { ret := 0, ldap_al := some al, inbox := rest, trace := [ev] }
      else if m.message_type = LDAP_RES_SEARCH_RESULT then
        match next_page m with
        | none => { ret := 0, ldap_al := some al, inbox := rest, trace := [ev] }
        | some pg =>
            -- break with pg != NULL: next turn of the do loop
            if (aldap_request env al).1 = false then
              { ret := -1, ldap_al := some (aldap_request env al).2, inbox := rest,
                trace := [ev, Event.aldap_search (some pg) false] }
            else
              (ldapc_search_loop env ls rest (aldap_request env al).2 dn).after
                [ev, Event.aldap_search (some pg) true]
      else if m.message_type ≠ LDAP_RES_SEARCH_ENTRY then
        fail al rest [ev]
      else if aldap_count_attrs m < 1 then
        (ldapc_search_loop env ls rest al dn).after [ev]
      else
        match aldap_get_dn m with
        | none => fail al rest [ev]
        | some searchdn =>
            (ldapc_search_loop env ls rest al (some (print_dn ls dn searchdn).1)).after
              ([ev, Event.entry m] ++ (print_dn ls dn searchdn).2 ++ print_attrs m.attrs)

/-- `ldapc_search` (lines 208-293) on an open handle `al` (the function
dereferences `ldap->ldap_al` without a check): the first request, without a
page control, then the loop. -/
def ldapc_search (env : Env) (al : aldap) (ls : struct_ldapc_search)
    (inbox : List (Option aldap_message)) : Ret :=
  if (aldap_request env al).1 = false then
    { ret := -1, ldap_al := some (aldap_request env al).2, inbox := inbox,
      trace := [Event.aldap_search none false] }
  else
    (ldapc_search_loop env ls inbox (aldap_request env al).2 none).after
      [Event.aldap_search none true]

/-! ## `ldapc_connect` -/

/-- The `for` loop of lines 313-324: the descriptor `fd` after the loop, the
socket of the first candidate for which `socket` does not return -1 and
`connect` returns at least 0, or -1 when there is none. -/
def connect_loop : List addrinfo → Int
  | [] => -1
  | res :: rest =>
      if res.socket = -1 then connect_loop rest
      else if res.connect ≥ 0 then res.socket
      else connect_loop rest

/-- What one block of `ldapc_connect` leaves behind: `ok` is `false` when the
block ends in `goto fail`. -/
structure Stage where
  ok : Bool
  al : aldap
  inbox : List (Option aldap_message)
  trace : List Event
  deriving DecidableEq, Repr

/-- Lines 335-355 of `ldapc_connect`: with `F_STARTTLS`, the STARTTLS request
and its response. -/
def ldapc_connect_starttls (env : Env) (ldap : ldapc) (al : aldap)
    (inbox : List (Option aldap_message)) : Stage :=
  if ldap.ldap_flags &&& F_STARTTLS ≠ 0 then
    if (aldap_request env al).1 = false then
      { ok := false, al := (aldap_request env al).2, inbox := inbox,
        trace := [Event.aldap_req_starttls false] }
    else
      match aldap_parse inbox with
      | (none, rest) =>
          { ok := false, al := (aldap_request env al).2, inbox := rest,
            trace := [Event.aldap_req_starttls true,
              Event.aldap_parse Site.starttls (aldap_request env al).2.msgid none] }
      | (some m, rest) =>
          { ok := decide (¬ ((aldap_request env al).2.msgid ≠ m.msgid ∨
              aldap_get_resultcode m ≠ LDAP_SUCCESS))
            al := (aldap_request env al).2, inbox := rest,
            trace := [Event.aldap_req_starttls true,
              Event.aldap_parse Site.starttls (aldap_request env al).2.msgid (some m)] }
  else
    { ok := true, al := al, inbox := inbox, trace := [] }

/-- Lines 357-376 of `ldapc_connect`: with `F_STARTTLS` or `F_TLS`, the TLS
configuration and the TLS wrap `aldap_tls`. -/
def ldapc_connect_tls (env : Env) (ldap : ldapc) (al : aldap)
    (inbox : List (Option aldap_message)) : Stage :=
  if ldap.ldap_flags &&& (F_STARTTLS ||| F_TLS) ≠ 0 then
    if env.tls_config_new = false then
      { ok := false, al := al, inbox := inbox, trace := [Event.tls_config_new false] }
    else if env.tls_config_set_ca_file = false then
      { ok := false, al := al, inbox := inbox,
        trace := [Event.tls_config_new true, Event.tls_config_set_ca_file false] }
    else if env.aldap_tls < 0 then
      { ok := false, al := al, inbox := inbox,
        trace := [Event.tls_config_new true, Event.tls_config_set_ca_file true,
          Event.aldap_tls false] }
    else
      { ok := true, al := al, inbox := inbox,
        trace := [Event.tls_config_new true, Event.tls_config_set_ca_file true,
          Event.aldap_tls true] }
  else
    { ok := true, al := al, inbox := inbox, trace := [] }

/-- Lines 378-399 of `ldapc_connect`: with `F_NEEDAUTH`, the bind request and
its response. -/
def ldapc_connect_bind (env : Env) (ldap : ldapc) (al : aldap)
    (inbox : List (Option aldap_message)) : Stage :=
  if ldap.ldap_flags &&& F_NEEDAUTH ≠ 0 then
    if (aldap_request env al).1 = false then
      { ok := false, al := (aldap_request env al).2, inbox := inbox,
        trace := [Event.aldap_bind false] }
    else
      match aldap_parse inbox with
      | (none, rest) =>
          { ok := false, al := (aldap_request env al).2, inbox := rest,
            trace := [Event.aldap_bind true,
              Event.aldap_parse Site.bind (aldap_request env al).2.msgid none] }
      | (some m, rest) =>
          { ok := decide (¬ ((aldap_request env al).2.msgid ≠ m.msgid ∨
              aldap_get_resultcode m ≠ LDAP_SUCCESS))
            al := (aldap_request env al).2, inbox := rest,
            trace := [Event.aldap_bind true,
              Event.aldap_parse Site.bind (aldap_request env al).2.msgid (some m)] }
  else
    { ok := true, al := al, inbox := inbox, trace := [] }

/-- `ldapc_connect` (lines 295-407).  Before `aldap_init` a failure returns -1
at once; from then on a failure jumps to `fail:`.  `aldap_init` returns a
fresh handle, whose `msgid` is 0. -/
def ldapc_connect (env : Env) (ldap : ldapc) (inbox : List (Option aldap_message)) : Ret :=
  if env.getaddrinfo ≠ 0 then
    { ret := -1, ldap_al := ldap.ldap_al, inbox := inbox, trace := [] }
  else if connect_loop env.res0 = -1 then
    { ret := -1, ldap_al := ldap.ldap_al, inbox := inbox, trace := [] }
  else if env.aldap_init = false then
    { ret := -1, ldap_al := none, inbox := inbox, trace := [Event.aldap_init false] }
  else
    let s1 := ldapc_connect_starttls env ldap { msgid := 0 } inbox
    if s1.ok = false then
      fail s1.al s1.inbox (Event.aldap_init true :: s1.trace)
    else
      let s2 := ldapc_connect_tls env ldap s1.al s1.inbox
      if s2.ok = false then
        fail s2.al s2.inbox (Event.aldap_init true :: (s1.trace ++ s2.trace))
      else
        let s3 := ldapc_connect_bind env ldap s2.al s2.inbox
        if s3.ok = false then
          fail s3.al s3.inbox (Event.aldap_init true :: (s1.trace ++ s2.trace ++ s3.trace))
        else
          { ret := 0, ldap_al := some s3.al, inbox := s3.inbox,
            trace := Event.aldap_init true :: (s1.trace ++ s2.trace ++ s3.trace) }

/-! ## `main` -/

/-- The end of `main` (lines 194-205), after the options are parsed into
`ldap` and `ls`: connect, `pledge`, search, disconnect.  `errx(1, ...)` and
`err(1, ...)` end the process with status 1.  The branch with status 139 (a
`NULL` handle passed on to `ldapc_search`) is never taken, see
`ldapc_connect_handle`. -/
def main (env : Env) (ldap : ldapc) (ls : struct_ldapc_search)
    (inbox : List (Option aldap_message)) : Exit :=
  if (ldapc_connect env ldap inbox).ret = -1 then
    { status := 1, trace := (ldapc_connect env ldap inbox).trace }
  else if env.pledge = false then
    { status := 1, trace := (ldapc_connect env ldap inbox).trace }
  else
    match (ldapc_connect env ldap inbox).ldap_al with
    | none => { status := 139, trace := (ldapc_connect env ldap inbox).trace }
    | some al =>
        let s := ldapc_search env al ls (ldapc_connect env ldap inbox).inbox
        if s.ret = -1 then
          { status := 1, trace := (ldapc_connect env ldap inbox).trace ++ s.trace }
        else
          { status := 0
            trace := (ldapc_connect env ldap inbox).trace ++ s.trace ++
              (ldapc_disconnect s.ldap_al).2 }

/-! ## Vocabulary of the properties -/

/-- A response `r` read while the request `id` is outstanding is a message
correlated with it whose result code is success. -/
def response_ok (id : Int) (r : Option aldap_message) : Prop :=
  ∃ m, r = some m ∧ m.msgid = id ∧ aldap_get_resultcode m = LDAP_SUCCESS

/-- The events of the STARTTLS negotiation: the request and the response read
for it. -/
def starttls_step : Event → Bool
  | Event.aldap_req_starttls _ => true
  | Event.aldap_parse Site.starttls _ _ => true
  | _ => false

/-- The events of the TLS wrap: the TLS configuration, the CA file and
`aldap_tls`. -/
def tls_step : Event → Bool
  | Event.tls_config_new _ => true
  | Event.tls_config_set_ca_file _ => true
  | Event.aldap_tls _ => true
  | _ => false

/-- The events of the bind: the request and the response read for it. -/
def bind_step : Event → Bool
  | Event.aldap_bind _ => true
  | Event.aldap_parse Site.bind _ _ => true
  | _ => false

/-- The events of the secure-channel steps: STARTTLS negotiation and TLS
wrap. -/
def secure_step (e : Event) : Bool :=
  starttls_step e || tls_step e

/-- An event by which the STARTTLS negotiation fails: the request cannot be
written, or the response read for it is missing, not correlated or not a
success. -/
def starttls_failure : Event → Prop
  | Event.aldap_req_starttls ok => ok = false
  | Event.aldap_parse Site.starttls id r => ¬ response_ok id r
  | _ => False

/-- An event by which the TLS wrap fails: the configuration, the CA file or
`aldap_tls` fails. -/
def tls_failure : Event → Prop
  | Event.tls_config_new ok => ok = false
  | Event.tls_config_set_ca_file ok => ok = false
  | Event.aldap_tls ok => ok = false
  | _ => False

/-- An event by which the bind fails: the request cannot be written, or the
response read for it is missing, not correlated or not a success. -/
def bind_failure : Event → Prop
  | Event.aldap_bind ok => ok = false
  | Event.aldap_parse Site.bind id r => ¬ response_ok id r
  | _ => False

/-- The STARTTLS negotiation fails in the run. -/
def starttls_failed (tr : List Event) : Prop := ∃ e ∈ tr, starttls_failure e

/-- The TLS wrap fails in the run. -/
def tls_failed (tr : List Event) : Prop := ∃ e ∈ tr, tls_failure e

/-- The bind fails in the run. -/
def bind_failed (tr : List Event) : Prop := ∃ e ∈ tr, bind_failure e

/-- A message read while the request `id` is outstanding passes every check of
the search loop up to the print block: correlated, result code success, a
search entry, at least one attribute, a DN. -/
def accepts (id : Int) (m : aldap_message) : Bool :=
  decide (m.msgid = id ∧ aldap_get_resultcode m = LDAP_SUCCESS ∧
    m.message_type = LDAP_RES_SEARCH_ENTRY ∧ 1 ≤ aldap_count_attrs m ∧ aldap_get_dn m ≠ none)

/-- The messages read in the search loop that pass every check (`accepts`). -/
def accepted : List Event → List aldap_message
  | [] => []
  | Event.aldap_parse Site.search id (some m) :: tr =>
      if accepts id m then m :: accepted tr else accepted tr
  | _ :: tr => accepted tr

/-- The search-entry messages with at least one attribute that the search loop
received, whatever else they carry. -/
def received_entries : List Event → List aldap_message
  | [] => []
  | Event.aldap_parse Site.search _ (some m) :: tr =>
      if m.message_type = LDAP_RES_SEARCH_ENTRY ∧ 1 ≤ aldap_count_attrs m then
        m :: received_entries tr
      else received_entries tr
  | _ :: tr => received_entries tr

/-- The lines `outkey: value` of one attribute. -/
def value_text (outkey : String) : List String → String
  | [] => ""
  | v :: vs => (outkey ++ ": " ++ v ++ "\n") ++ value_text outkey vs

/-- The attribute lines of an entry: one line per value, attributes and values
in the order of the message. -/
def attr_text : List (String × List String) → String
  | [] => ""
  | (outkey, outvalues) :: rest => value_text outkey outvalues ++ attr_text rest

/-- The `dn:` line of an entry: nothing when the DN is the base DN. -/
def dn_text (basedn : String) (m : aldap_message) : String :=
  match aldap_get_dn m with
  | some d => if basedn = d then "" else "dn: " ++ d ++ "\n"
  | none => ""

/-- The text of the entries `ms`: before each entry but the first a blank
line, then its `dn:` line unless the DN is the base DN, then its attribute
lines.  `first` tells whether the head of `ms` is the first entry. -/
def render_from (basedn : String) : Bool → List aldap_message → String
  | _, [] => ""
  | first, m :: ms =>
      (if first then "" else "\n") ++ dn_text basedn m ++ attr_text m.attrs ++
        render_from basedn false ms

/-- The text of the entries `ms`, the head being the first entry written. -/
def render (basedn : String) (ms : List aldap_message) : String :=
  render_from basedn true ms

/-- The text of the entries `ms` when the `dn:` line is left out only for a
first entry whose DN is the base DN, and every later entry gets its `dn:`
line. -/
def render_first_only (basedn : String) : Bool → List aldap_message → String
  | _, [] => ""
  | first, m :: ms =>
      (if first then "" else "\n") ++
        (match aldap_get_dn m with
          | some d => if first ∧ basedn = d then "" else "dn: " ++ d ++ "\n"
          | none => "") ++
        attr_text m.attrs ++ render_first_only basedn false ms

/-- The text of the entries `ms` when every entry gets its `dn:` line. -/
def render_always_dn : Bool → List aldap_message → String
  | _, [] => ""
  | first, m :: ms =>
      (if first then "" else "\n") ++
        (match aldap_get_dn m with
          | some d => "dn: " ++ d ++ "\n"
          | none => "") ++
        attr_text m.attrs ++ render_always_dn false ms

/-- One page of a search: the search-entry messages, then the terminal
search-result message. -/
structure Page where
  entries : List aldap_message
  result : aldap_message
  deriving DecidableEq, Repr

/-- The messages of a page as `aldap_parse` returns them. -/
def Page.stream (p : Page) : List (Option aldap_message) :=
  (p.entries ++ [p.result]).map some

/-- The messages of the pages, one page after the other. -/
def pages_stream : List Page → List (Option aldap_message)
  | [] => []
  | p :: ps => p.stream ++ pages_stream ps

/-- A search-entry message that is correlated with the request `id` and
successful: it has the identifier `id`, the result code success, and a DN when
it has attributes. -/
def entry_well (id : Int) (m : aldap_message) : Prop :=
  m.msgid = id ∧ aldap_get_resultcode m = LDAP_SUCCESS ∧
    m.message_type = LDAP_RES_SEARCH_ENTRY ∧ (aldap_count_attrs m < 1 ∨ aldap_get_dn m ≠ none)

/-- A terminal search-result message that is correlated with the request `id`
and successful. -/
def result_well (id : Int) (m : aldap_message) : Prop :=
  m.msgid = id ∧ aldap_get_resultcode m = LDAP_SUCCESS ∧
    m.message_type = LDAP_RES_SEARCH_RESULT

/-- Every message of the page is correlated with the request `id` and
successful. -/
def page_well (id : Int) (p : Page) : Prop :=
  (∀ m ∈ p.entries, entry_well id m) ∧ result_well id p.result

/-- The pages answer the requests `id`, `id + 1`, ... in turn, and the terminal
result of each carries a cookie that is not empty. -/
def pages_well : Int → List Page → Prop
  | _, [] => True
  | id, p :: ps =>
      page_well id p ∧ (∃ pg, p.result.page = some pg ∧ pg.cookie ≠ []) ∧
        pages_well (id + 1) ps

/-! ## Sample inputs -/

/-- An environment in which no call fails; one candidate address. -/
def env_ok : Env where
  getaddrinfo := 0
  res0 := [{ socket := 3, connect := 0 }]
  aldap_init := true
  request := fun _ => true
  tls_config_new := true
  tls_config_set_ca_file := true
  aldap_tls := 0
  pledge := true

/-- The environment `env_ok`, except that no request can be written. -/
def env_nosend : Env :=
  { env_ok with request := fun _ => false }

/-- The environment `env_ok`, except that the TLS handshake `aldap_tls`
fails. -/
def env_tls_fails : Env :=
  { env_ok with aldap_tls := -1 }

/-- A session as `main` sets it up: no handle yet, the given flags. -/
def session (flags : Nat) : ldapc where
  ldap_al := none
  ldap_host := some "ldap.example.org"
  ldap_port := some "389"
  ldap_capath := some "/etc/ssl/cert.pem"
  ldap_binddn := some "cn=admin,dc=x"
  ldap_secret := some "secret"
  ldap_flags := flags

/-- A subtree search for everything below `basedn`. -/
def search_all (basedn : String) : struct_ldapc_search where
  ls_basedn := basedn
  ls_filter := "(objectClass=*)"
  ls_scope := 2
  ls_attr := none

/-- A search-entry message with one attribute that has one value. -/
def entry1 (id : Int) (dn key value : String) : aldap_message where
  msgid := id
  message_type := LDAP_RES_SEARCH_ENTRY
  rescode := LDAP_SUCCESS
  page := none
  dn := some dn
  attrs := [(key, [value])]

/-- A terminal search-result message. -/
def result (id code : Int) (page : Option aldap_page_control) : aldap_message where
  msgid := id
  message_type := LDAP_RES_SEARCH_RESULT
  rescode := code
  page := page
  dn := none
  attrs := []

/-- A response to a STARTTLS or bind request (`message_type` 1 is a bind
response; `ldapc_connect` does not read the type). -/
def response (id code : Int) : aldap_message where
  msgid := id
  message_type := 1
  rescode := code
  page := none
  dn := none
  attrs := []

/-- The entry `cn=a,dc=x` with `cn: a`, in answer to the request 1. -/
def entry_a : aldap_message := entry1 1 "cn=a,dc=x" "cn" "a"

/-- The entry `cn=b,dc=x` with `cn: b`, in answer to the request 1. -/
def entry_b : aldap_message := entry1 1 "cn=b,dc=x" "cn" "b"

/-- The entry `dc=x` with `o: x`, in answer to the request 1. -/
def entry_base : aldap_message := entry1 1 "dc=x" "o" "x"

/-- A search-entry message in answer to the request 1 with the attribute
`cn: a`, for which `aldap_get_dn` returns `NULL`. -/
def entry_nodn : aldap_message :=
  { entry_a with dn := none }

/-- A search-result-reference message (RFC 4511 application tag 19): neither a
search entry nor a terminal search result; result code success. -/
def reference (id : Int) : aldap_message where
  msgid := id
  message_type := 19
  rescode := LDAP_SUCCESS
  page := none
  dn := none
  attrs := []

/-- The environment `env_ok`, except that the request with the message
identifier 2 cannot be written. -/
def env_second_fails : Env :=
  { env_ok with request := fun id => decide (id ≠ 2) }

/-- A first page with the entry `cn=a,dc=x`, whose terminal result carries the
cookie `[7]`. -/
def page_one : Page where
  entries := [entry_a]
  result := result 1 LDAP_SUCCESS (some { cookie := [7] })

/-- A second page with the entry `cn=b,dc=x`, in answer to the request 2,
whose terminal result carries an empty cookie. -/
def page_two : Page where
  entries := [entry1 2 "cn=b,dc=x" "cn" "b"]
  result := result 2 LDAP_SUCCESS (some { cookie := [] })

/-! ## Reading a trace: basic facts -/

@[simp] theorem stdout_append (a b : List Event) : stdout (a ++ b) = stdout a ++ stdout b := by
  induction a with
  | nil => simp [stdout]
  | cons e a ih => cases e <;> simp [stdout, ih, String.append_assoc]

@[simp] theorem written_append (a b : List Event) :
    written (a ++ b) = written a ++ written b := by
  induction a with
  | nil => simp [written]
  | cons e a ih => cases e <;> simp [written, ih]

@[simp] theorem closes_append (a b : List Event) : closes (a ++ b) = closes a + closes b := by
  induction a with
  | nil => simp [closes]
  | cons e a ih =>
      cases e
      case aldap_close => simp [closes, ih]; omega
      all_goals simp [closes, ih]

@[simp] theorem searches_append (a b : List Event) :
    searches (a ++ b) = searches a ++ searches b := by
  induction a with
  | nil => simp [searches]
  | cons e a ih => cases e <;> simp [searches, ih]

@[simp] theorem accepted_append (a b : List Event) :
    accepted (a ++ b) = accepted a ++ accepted b := by
  induction a with
  | nil => simp [accepted]
  | cons e a ih =>
      cases e
      case aldap_parse site id r =>
        cases site <;> cases r <;> simp [accepted, ih]
        split_ifs <;> simp
      all_goals simp [accepted, ih]

@[simp] theorem Ret.after_ret (evs : List Event) (r : Ret) : (r.after evs).ret = r.ret := rfl

@[simp] theorem Ret.after_ldap_al (evs : List Event) (r : Ret) :
    (r.after evs).ldap_al = r.ldap_al := rfl

@[simp] theorem Ret.after_inbox (evs : List Event) (r : Ret) :
    (r.after evs).inbox = r.inbox := rfl

@[simp] theorem Ret.after_trace (evs : List Event) (r : Ret) :
    (r.after evs).trace = evs ++ r.trace := rfl

/-- The print block only prints. -/
theorem print_attrs_printf (attrs : List (String × List String)) :
    ∀ e ∈ print_attrs attrs, ∃ s, e = Event.printf s := by
  induction attrs with
  | nil => simp [print_attrs]
  | cons kv rest ih =>
      obtain ⟨k, vs⟩ := kv
      intro e he
      simp only [print_attrs, List.mem_append, List.mem_map] at he
      rcases he with ⟨v, _, rfl⟩ | he
      · exact ⟨_, rfl⟩
      · exact ih e he

theorem print_dn_printf (ls : struct_ldapc_search) (dn : Option String) (searchdn : String) :
    ∀ e ∈ (print_dn ls dn searchdn).2, ∃ s, e = Event.printf s := by
  intro e he
  simp only [print_dn] at he
  split_ifs at he <;> simp at he <;> rcases he with rfl | rfl <;> exact ⟨_, rfl⟩

theorem print_printf (ls : struct_ldapc_search) (dn : Option String) (searchdn : String)
    (attrs : List (String × List String)) :
    ∀ e ∈ (print_dn ls dn searchdn).2 ++ print_attrs attrs, ∃ s, e = Event.printf s := by
  intro e he
  rcases List.mem_append.1 he with he | he
  · exact print_dn_printf ls dn searchdn e he
  · exact print_attrs_printf attrs e he

theorem closes_printf (tr : List Event) (h : ∀ e ∈ tr, ∃ s, e = Event.printf s) :
    closes tr = 0 := by
  induction tr with
  | nil => rfl
  | cons e tr ih =>
      obtain ⟨s, rfl⟩ := h e (by simp)
      simpa [closes] using ih (fun e he => h e (by simp [he]))

theorem written_printf (tr : List Event) (h : ∀ e ∈ tr, ∃ s, e = Event.printf s) :
    written tr = [] := by
  induction tr with
  | nil => rfl
  | cons e tr ih =>
      obtain ⟨s, rfl⟩ := h e (by simp)
      simpa [written] using ih (fun e he => h e (by simp [he]))

theorem searches_printf (tr : List Event) (h : ∀ e ∈ tr, ∃ s, e = Event.printf s) :
    searches tr = [] := by
  induction tr with
  | nil => rfl
  | cons e tr ih =>
      obtain ⟨s, rfl⟩ := h e (by simp)
      simpa [searches] using ih (fun e he => h e (by simp [he]))

theorem accepted_printf (tr : List Event) (h : ∀ e ∈ tr, ∃ s, e = Event.printf s) :
    accepted tr = [] := by
  induction tr with
  | nil => rfl
  | cons e tr ih =>
      obtain ⟨s, rfl⟩ := h e (by simp)
      simpa [accepted] using ih (fun e he => h e (by simp [he]))

theorem parse_not_mem_print (ls : struct_ldapc_search) (dn : Option String) (searchdn : String)
    (attrs : List (String × List String)) (site : Site) (id : Int) (r : Option aldap_message) :
    Event.aldap_parse site id r ∉ (print_dn ls dn searchdn).2 ++ print_attrs attrs := by
  intro he
  obtain ⟨s, hs⟩ := print_printf ls dn searchdn attrs _ he
  cases hs

/-! ## The search loop, branch by branch -/

/-- The print step of the loop: an accepted entry is printed and the loop goes
on with `dn` set. -/
theorem ldapc_search_loop_entry (env : Env) (ls : struct_ldapc_search) (m : aldap_message)
    (rest : List (Option aldap_message)) (al : aldap) (dn : Option String) (searchdn : String)
    (h1 : ¬ al.msgid ≠ m.msgid) (h2 : ¬ aldap_get_resultcode m ≠ LDAP_SUCCESS)
    (h3 : ¬ m.message_type = LDAP_RES_SEARCH_RESULT)
    (h4 : ¬ m.message_type ≠ LDAP_RES_SEARCH_ENTRY) (h5 : ¬ aldap_count_attrs m < 1)
    (h6 : aldap_get_dn m = some searchdn) :
    ldapc_search_loop env ls (some m :: rest) al dn =
      (ldapc_search_loop env ls rest al (some (print_dn ls dn searchdn).1)).after
        ([Event.aldap_parse Site.search al.msgid (some m), Event.entry m] ++
          ((print_dn ls dn searchdn).2 ++ print_attrs m.attrs)) := by
  rw [ldapc_search_loop]
  simp only [h1, h2, h3, h4, h5, h6, if_false, List.append_assoc]

/-- The skip step of the loop: an entry without attributes is passed over. -/
theorem ldapc_search_loop_skip (env : Env) (ls : struct_ldapc_search) (m : aldap_message)
    (rest : List (Option aldap_message)) (al : aldap) (dn : Option String)
    (h1 : ¬ al.msgid ≠ m.msgid) (h2 : ¬ aldap_get_resultcode m ≠ LDAP_SUCCESS)
    (h3 : ¬ m.message_type = LDAP_RES_SEARCH_RESULT)
    (h4 : ¬ m.message_type ≠ LDAP_RES_SEARCH_ENTRY) (h5 : aldap_count_attrs m < 1) :
    ldapc_search_loop env ls (some m :: rest) al dn =
      (ldapc_search_loop env ls rest al dn).after
        [Event.aldap_parse Site.search al.msgid (some m)] := by
  rw [ldapc_search_loop]
  simp only [h1, h2, h3, h4, h5, if_false, if_true]

/-- The page step of the loop: a successful terminal result with a cookie
sends the next request, and the loop goes on. -/
theorem ldapc_search_loop_page (env : Env) (ls : struct_ldapc_search) (m : aldap_message)
    (rest : List (Option aldap_message)) (al : aldap) (dn : Option String)
    (pg : aldap_page_control)
    (h1 : ¬ al.msgid ≠ m.msgid) (h2 : ¬ aldap_get_resultcode m ≠ LDAP_SUCCESS)
    (h3 : m.message_type = LDAP_RES_SEARCH_RESULT) (h4 : next_page m = some pg)
    (h5 : ¬ (aldap_request env al).1 = false) :
    ldapc_search_loop env ls (some m :: rest) al dn =
      (ldapc_search_loop env ls rest (aldap_request env al).2 dn).after
        [Event.aldap_parse Site.search al.msgid (some m), Event.aldap_search (some pg) true] := by
  rw [ldapc_search_loop]
  simp [h1, h2, h3, h4, h5]

/-- When `aldap_parse` returns `NULL` in the loop, the loop returns 0 with the
handle open, and that call is the last event. -/
theorem ldapc_search_loop_null (env : Env) (ls : struct_ldapc_search)
    (inbox : List (Option aldap_message)) (al : aldap) (dn : Option String) (id : Int)
    (h : Event.aldap_parse Site.search id none ∈ (ldapc_search_loop env ls inbox al dn).trace) :
    (ldapc_search_loop env ls inbox al dn).ret = 0 ∧
    (∃ al1, (ldapc_search_loop env ls inbox al dn).ldap_al = some al1) ∧
    closes (ldapc_search_loop env ls inbox al dn).trace = 0 ∧
    ∃ pre, (ldapc_search_loop env ls inbox al dn).trace =
      pre ++ [Event.aldap_parse Site.search id none] := by
  induction inbox, al, dn using ldapc_search_loop.induct env ls with
  | case1 al dn =>
      rw [ldapc_search_loop] at h ⊢
      simp only [List.mem_singleton, Event.aldap_parse.injEq] at h
      obtain ⟨_, rfl, _⟩ := h
      exact ⟨rfl, ⟨al, rfl⟩, rfl, [], rfl⟩
  | case2 rest al dn =>
      rw [ldapc_search_loop] at h ⊢
      simp only [List.mem_singleton, Event.aldap_parse.injEq] at h
      obtain ⟨_, rfl, _⟩ := h
      exact ⟨rfl, ⟨al, rfl⟩, rfl, [], rfl⟩
  | case7 m rest al dn h1 h2 h3 pg h4 h5 ih =>
      rw [ldapc_search_loop_page env ls m rest al dn pg h1 h2 h3 h4 h5] at h ⊢
      simp only [Ret.after_trace, Ret.after_ret, Ret.after_ldap_al] at h ⊢
      simp at h
      obtain ⟨i1, i2, i3, pre, i4⟩ := ih h
      refine ⟨i1, i2, by simp [closes, i3], ?_⟩
      rw [i4, ← List.append_assoc]
      exact ⟨_, rfl⟩
  | case9 m rest al dn h1 h2 h3 h4 h5 ih =>
      rw [ldapc_search_loop_skip env ls m rest al dn h1 h2 h3 h4 h5] at h ⊢
      simp only [Ret.after_trace, Ret.after_ret, Ret.after_ldap_al] at h ⊢
      simp at h
      obtain ⟨i1, i2, i3, pre, i4⟩ := ih h
      refine ⟨i1, i2, by simp [closes, i3], ?_⟩
      rw [i4, ← List.append_assoc]
      exact ⟨_, rfl⟩
  | case11 m rest al dn h1 h2 h3 h4 h5 searchdn h6 ih =>
      rw [ldapc_search_loop_entry env ls m rest al dn searchdn h1 h2 h3 h4 h5 h6] at h ⊢
      simp only [Ret.after_trace, Ret.after_ret, Ret.after_ldap_al] at h ⊢
      have hn := parse_not_mem_print ls dn searchdn m.attrs Site.search id none
      have hc := closes_printf _ (print_printf ls dn searchdn m.attrs)
      rw [List.mem_append, List.mem_append] at h
      have h0 : Event.aldap_parse Site.search id none ∉
          [Event.aldap_parse Site.search al.msgid (some m), Event.entry m] := by simp
      obtain ⟨i1, i2, i3, pre, i4⟩ := ih (by tauto)
      refine ⟨i1, i2, ?_, ?_⟩
      · rw [closes_append, closes_append, hc, i3]
        simp [closes]
      · rw [i4, ← List.append_assoc]
        exact ⟨_, rfl⟩
  | _ =>
      rw [ldapc_search_loop] at h
      simp [*, fail, ldapc_disconnect] at h

/-- A message read in the loop whose identifier is not the one of the
outstanding request makes the loop fail: -1, the handle closed once. -/
theorem ldapc_search_loop_mismatch (env : Env) (ls : struct_ldapc_search)
    (inbox : List (Option aldap_message)) (al : aldap) (dn : Option String)
    (site : Site) (id : Int) (x : aldap_message)
    (h : Event.aldap_parse site id (some x) ∈ (ldapc_search_loop env ls inbox al dn).trace)
    (hx : x.msgid ≠ id) :
    (ldapc_search_loop env ls inbox al dn).ret = -1 ∧
    (ldapc_search_loop env ls inbox al dn).ldap_al = none ∧
    closes (ldapc_search_loop env ls inbox al dn).trace = 1 := by
  induction inbox, al, dn using ldapc_search_loop.induct env ls with
  | case1 al dn =>
      rw [ldapc_search_loop] at h
      simp at h
  | case2 rest al dn =>
      rw [ldapc_search_loop] at h
      simp at h
  | case3 m rest al dn h1 =>
      rw [ldapc_search_loop]
      simp [h1, fail, ldapc_disconnect, closes]
  | case7 m rest al dn h1 h2 h3 pg h4 h5 ih =>
      rw [ldapc_search_loop_page env ls m rest al dn pg h1 h2 h3 h4 h5] at h ⊢
      simp only [Ret.after_trace, Ret.after_ret, Ret.after_ldap_al] at h ⊢
      have hh : Event.aldap_parse site id (some x) ∈
          (ldapc_search_loop env ls rest (aldap_request env al).2 dn).trace := by
        rcases List.mem_append.1 h with h | h
        · simp only [List.mem_cons, Event.aldap_parse.injEq, Option.some.injEq,
            List.mem_singleton, reduceCtorEq, or_false, List.not_mem_nil] at h
          obtain ⟨_, rfl, rfl⟩ := h
          exact absurd (not_not.1 h1).symm hx
        · exact h
      obtain ⟨i1, i2, i3⟩ := ih hh
      exact ⟨i1, i2, by simp [closes, i3]⟩
  | case9 m rest al dn h1 h2 h3 h4 h5 ih =>
      rw [ldapc_search_loop_skip env ls m rest al dn h1 h2 h3 h4 h5] at h ⊢
      simp only [Ret.after_trace, Ret.after_ret, Ret.after_ldap_al] at h ⊢
      have hh : Event.aldap_parse site id (some x) ∈
          (ldapc_search_loop env ls rest al dn).trace := by
        rcases List.mem_append.1 h with h | h
        · simp only [List.mem_singleton, Event.aldap_parse.injEq, Option.some.injEq] at h
          obtain ⟨_, rfl, rfl⟩ := h
          exact absurd (not_not.1 h1).symm hx
        · exact h
      obtain ⟨i1, i2, i3⟩ := ih hh
      exact ⟨i1, i2, by simp [closes, i3]⟩
  | case11 m rest al dn h1 h2 h3 h4 h5 searchdn h6 ih =>
      rw [ldapc_search_loop_entry env ls m rest al dn searchdn h1 h2 h3 h4 h5 h6] at h ⊢
      simp only [Ret.after_trace, Ret.after_ret, Ret.after_ldap_al] at h ⊢
      have hc := closes_printf _ (print_printf ls dn searchdn m.attrs)
      have hh : Event.aldap_parse site id (some x) ∈
          (ldapc_search_loop env ls rest al (some (print_dn ls dn searchdn).1)).trace := by
        rcases List.mem_append.1 h with h | h
        · rcases List.mem_append.1 h with h | h
          · simp only [List.mem_cons, Event.aldap_parse.injEq, Option.some.injEq,
              List.mem_singleton, reduceCtorEq, or_false, List.not_mem_nil] at h
            obtain ⟨_, rfl, rfl⟩ := h
            exact absurd (not_not.1 h1).symm hx
          · exact absurd h (parse_not_mem_print ls dn searchdn m.attrs site id (some x))
        · exact h
      obtain ⟨i1, i2, i3⟩ := ih hh
      refine ⟨i1, i2, ?_⟩
      rw [closes_append, closes_append, hc, i3]
      simp [closes]
  | _ =>
      rw [ldapc_search_loop] at h
      simp [*, fail, ldapc_disconnect] at h
      obtain ⟨_, rfl, rfl⟩ := h
      simp_all

/-! ## What the loop writes -/

theorem accepts_iff (id : Int) (m : aldap_message) :
    accepts id m = true ↔ (¬ id ≠ m.msgid ∧ ¬ aldap_get_resultcode m ≠ LDAP_SUCCESS ∧
      m.message_type = LDAP_RES_SEARCH_ENTRY ∧ ¬ aldap_count_attrs m < 1 ∧
      aldap_get_dn m ≠ none) := by
  unfold accepts
  simp only [decide_eq_true_eq, not_not, not_lt]
  constructor
  · rintro ⟨a, b, c, d, e⟩
    exact ⟨a.symm, b, c, d, e⟩
  · rintro ⟨a, b, c, d, e⟩
    exact ⟨a.symm, b, c, d, e⟩

/-- The entries the loop writes are the messages it reads that pass every
check. -/
theorem ldapc_search_loop_written (env : Env) (ls : struct_ldapc_search)
    (inbox : List (Option aldap_message)) (al : aldap) (dn : Option String) :
    written (ldapc_search_loop env ls inbox al dn).trace =
      accepted (ldapc_search_loop env ls inbox al dn).trace := by
  induction inbox, al, dn using ldapc_search_loop.induct env ls with
  | case1 al dn => rw [ldapc_search_loop]; rfl
  | case2 rest al dn => rw [ldapc_search_loop]; rfl
  | case7 m rest al dn h1 h2 h3 pg h4 h5 ih =>
      rw [ldapc_search_loop_page env ls m rest al dn pg h1 h2 h3 h4 h5]
      have ha : accepts al.msgid m = false := by
        rw [← Bool.not_eq_true, accepts_iff]
        rintro ⟨_, _, c, _⟩
        rw [h3] at c
        exact absurd c (by decide)
      simp [written, accepted, ha, ih]
  | case9 m rest al dn h1 h2 h3 h4 h5 ih =>
      rw [ldapc_search_loop_skip env ls m rest al dn h1 h2 h3 h4 h5]
      have ha : accepts al.msgid m = false := by
        rw [← Bool.not_eq_true, accepts_iff]
        rintro ⟨_, _, _, d, _⟩
        exact d h5
      simp [written, accepted, ha, ih]
  | case11 m rest al dn h1 h2 h3 h4 h5 searchdn h6 ih =>
      rw [ldapc_search_loop_entry env ls m rest al dn searchdn h1 h2 h3 h4 h5 h6]
      have ha : accepts al.msgid m = true := by
        rw [accepts_iff]
        exact ⟨h1, h2, not_not.1 h4, h5, by simp [h6]⟩
      have hw := written_printf _ (print_printf ls dn searchdn m.attrs)
      have hacc := accepted_printf _ (print_printf ls dn searchdn m.attrs)
      simp only [Ret.after_trace, written_append, accepted_append, hw, hacc, ih]
      simp [written, accepted, ha]
  | case3 m rest al dn h1 =>
      rw [ldapc_search_loop]
      have ha : accepts al.msgid m = false := by
        rw [← Bool.not_eq_true, accepts_iff]
        rintro ⟨a, _⟩
        exact a h1
      simp [h1, fail, ldapc_disconnect, written, accepted, ha]
  | case4 m rest al dn h1 h2 =>
      rw [ldapc_search_loop]
      have ha : accepts al.msgid m = false := by
        rw [← Bool.not_eq_true, accepts_iff]
        rintro ⟨_, b, _⟩
        exact b h2
      simp [h1, h2, written, accepted, ha]
  | case5 m rest al dn h1 h2 h3 h4 =>
      rw [ldapc_search_loop]
      have ha : accepts al.msgid m = false := by
        rw [← Bool.not_eq_true, accepts_iff]
        rintro ⟨_, _, c, _⟩
        rw [h3] at c
        exact absurd c (by decide)
      simp [h1, h2, h3, h4, written, accepted, ha]
  | case6 m rest al dn h1 h2 h3 pg h4 h5 =>
      rw [ldapc_search_loop]
      have ha : accepts al.msgid m = false := by
        rw [← Bool.not_eq_true, accepts_iff]
        rintro ⟨_, _, c, _⟩
        rw [h3] at c
        exact absurd c (by decide)
      simp [h1, h2, h3, h4, h5, written, accepted, ha]
  | case8 m rest al dn h1 h2 h3 h4 =>
      rw [ldapc_search_loop]
      have ha : accepts al.msgid m = false := by
        rw [← Bool.not_eq_true, accepts_iff]
        rintro ⟨_, _, c, _⟩
        exact h4 c
      simp [h1, h2, h3, h4, fail, ldapc_disconnect, written, accepted, ha]
  | case10 m rest al dn h1 h2 h3 h4 h5 h6 =>
      rw [ldapc_search_loop]
      have ha : accepts al.msgid m = false := by
        rw [← Bool.not_eq_true, accepts_iff]
        rintro ⟨_, _, _, _, e⟩
        exact e h6
      simp [h1, h2, h3, h4, h5, h6, fail, ldapc_disconnect, written, accepted, ha]

theorem stdout_value_lines (outkey : String) (vs : List String) :
    stdout (vs.map (fun v => Event.printf (outkey ++ ": " ++ v ++ "\n"))) =
      value_text outkey vs := by
  induction vs with
  | nil => rfl
  | cons v vs ih => simp [stdout, value_text, ih]

theorem stdout_print_attrs (attrs : List (String × List String)) :
    stdout (print_attrs attrs) = attr_text attrs := by
  induction attrs with
  | nil => rfl
  | cons kv rest ih =>
      obtain ⟨k, vs⟩ := kv
      simp [print_attrs, attr_text, stdout_value_lines, ih]

theorem stdout_print_dn (ls : struct_ldapc_search) (dn : Option String) (m : aldap_message)
    (searchdn : String) (hm : aldap_get_dn m = some searchdn)
    (hdn : dn = none ∨ dn = some ls.ls_basedn) :
    (print_dn ls dn searchdn).1 = ls.ls_basedn ∧
    stdout (print_dn ls dn searchdn).2 =
      (if dn.isNone then "" else "\n") ++ dn_text ls.ls_basedn m := by
  rcases hdn with rfl | rfl
  · by_cases hb : ls.ls_basedn = searchdn <;> simp [print_dn, dn_text, hm, hb, stdout]
  · by_cases hb : ls.ls_basedn = searchdn <;> simp [print_dn, dn_text, hm, hb, stdout]

/-- The text the loop writes is the rendering of the entries it writes. -/
theorem ldapc_search_loop_stdout (env : Env) (ls : struct_ldapc_search)
    (inbox : List (Option aldap_message)) (al : aldap) (dn : Option String)
    (hdn : dn = none ∨ dn = some ls.ls_basedn) :
    stdout (ldapc_search_loop env ls inbox al dn).trace =
      render_from ls.ls_basedn dn.isNone (written (ldapc_search_loop env ls inbox al dn).trace) := by
  induction inbox, al, dn using ldapc_search_loop.induct env ls with
  | case1 al dn => rw [ldapc_search_loop]; rfl
  | case2 rest al dn => rw [ldapc_search_loop]; rfl
  | case7 m rest al dn h1 h2 h3 pg h4 h5 ih =>
      rw [ldapc_search_loop_page env ls m rest al dn pg h1 h2 h3 h4 h5]
      simp [stdout, written, ih hdn]
  | case9 m rest al dn h1 h2 h3 h4 h5 ih =>
      rw [ldapc_search_loop_skip env ls m rest al dn h1 h2 h3 h4 h5]
      simp [stdout, written, ih hdn]
  | case11 m rest al dn h1 h2 h3 h4 h5 searchdn h6 ih =>
      rw [ldapc_search_loop_entry env ls m rest al dn searchdn h1 h2 h3 h4 h5 h6]
      obtain ⟨e1, e2⟩ := stdout_print_dn ls dn m searchdn h6 hdn
      have hw := written_printf _ (print_printf ls dn searchdn m.attrs)
      have ih1 := ih (Or.inr (congrArg some e1))
      simp only [Ret.after_trace, stdout_append, written_append, hw, ih1, e2,
        stdout_print_attrs]
      simp [stdout, written, render_from, String.append_assoc]
  | case3 m rest al dn h1 =>
      rw [ldapc_search_loop]
      simp [h1, fail, ldapc_disconnect, written, stdout, render_from]
  | case4 m rest al dn h1 h2 =>
      rw [ldapc_search_loop]
      simp [h1, h2, written, stdout, render_from]
  | case5 m rest al dn h1 h2 h3 h4 =>
      rw [ldapc_search_loop]
      simp [h1, h2, h3, h4, written, stdout, render_from]
  | case6 m rest al dn h1 h2 h3 pg h4 h5 =>
      rw [ldapc_search_loop]
      simp [h1, h2, h3, h4, h5, written, stdout, render_from]
  | case8 m rest al dn h1 h2 h3 h4 =>
      rw [ldapc_search_loop]
      simp [h1, h2, h3, h4, fail, ldapc_disconnect, written, stdout, render_from]
  | case10 m rest al dn h1 h2 h3 h4 h5 h6 =>
      rw [ldapc_search_loop]
      simp [h1, h2, h3, h4, h5, h6, fail, ldapc_disconnect, written, stdout, render_from]

/-! ## Pages -/

/-- The loop passes over correlated, successful entry messages: it neither
sends a request nor closes the handle, and goes on with the rest. -/
theorem ldapc_search_loop_entries (env : Env) (ls : struct_ldapc_search) (al : aldap)
    (entries : List aldap_message) (h : ∀ m ∈ entries, entry_well al.msgid m)
    (rest : List (Option aldap_message)) (dn : Option String) :
    ∃ dn1 evs, ldapc_search_loop env ls (entries.map some ++ rest) al dn =
        (ldapc_search_loop env ls rest al dn1).after evs ∧
      searches evs = [] ∧ closes evs = 0 := by
  induction entries generalizing dn with
  | nil => exact ⟨dn, [], rfl, rfl, rfl⟩
  | cons m ms ih =>
      obtain ⟨e1, e2, e3, e4⟩ := h m (by simp)
      have h1 : ¬ al.msgid ≠ m.msgid := by simp [e1]
      have h2 : ¬ aldap_get_resultcode m ≠ LDAP_SUCCESS := by simp [e2]
      have h3 : ¬ m.message_type = LDAP_RES_SEARCH_RESULT := by
        rw [e3]; decide
      have h4 : ¬ m.message_type ≠ LDAP_RES_SEARCH_ENTRY := by simp [e3]
      have hms : ∀ x ∈ ms, entry_well al.msgid x := fun x hx => h x (by simp [hx])
      by_cases h5 : aldap_count_attrs m < 1
      · obtain ⟨dn1, evs, i1, i2, i3⟩ := ih hms dn
        refine ⟨dn1, Event.aldap_parse Site.search al.msgid (some m) :: evs, ?_, ?_, ?_⟩
        · rw [List.map_cons, List.cons_append,
            ldapc_search_loop_skip env ls m _ al dn h1 h2 h3 h4 h5, i1]
          rfl
        · simpa [searches] using i2
        · simpa [closes] using i3
      · have h6 : aldap_get_dn m ≠ none := by
          rcases e4 with e4 | e4
          · exact absurd e4 h5
          · exact e4
        obtain ⟨searchdn, h6⟩ := Option.ne_none_iff_exists'.1 h6
        obtain ⟨dn1, evs, i1, i2, i3⟩ := ih hms (some (print_dn ls dn searchdn).1)
        refine ⟨dn1, ([Event.aldap_parse Site.search al.msgid (some m), Event.entry m] ++
          ((print_dn ls dn searchdn).2 ++ print_attrs m.attrs)) ++ evs, ?_, ?_, ?_⟩
        · rw [List.map_cons, List.cons_append,
            ldapc_search_loop_entry env ls m _ al dn searchdn h1 h2 h3 h4 h5 h6, i1]
          simp [Ret.after]
        · rw [searches_append, searches_append, i2,
            searches_printf _ (print_printf ls dn searchdn m.attrs)]
          rfl
        · rw [closes_append, closes_append, i3,
            closes_printf _ (print_printf ls dn searchdn m.attrs)]
          rfl

/-- A page whose terminal result carries a cookie: the loop sends the next
request with that page control and goes on with the rest. -/
theorem ldapc_search_loop_next (env : Env) (ls : struct_ldapc_search) (al : aldap)
    (p : Page) (hp : page_well al.msgid p) (pg : aldap_page_control)
    (hpg : p.result.page = some pg) (hc : pg.cookie ≠ [])
    (hr : env.request (al.msgid + 1) = true)
    (rest : List (Option aldap_message)) (dn : Option String) :
    ∃ dn1 evs, ldapc_search_loop env ls (p.stream ++ rest) al dn =
        (ldapc_search_loop env ls rest { msgid := al.msgid + 1 } dn1).after evs ∧
      searches evs = [(some pg, true)] ∧ closes evs = 0 := by
  obtain ⟨he, e1, e2, e3⟩ := hp
  obtain ⟨dn1, evs, i1, i2, i3⟩ :=
    ldapc_search_loop_entries env ls al p.entries he (some p.result :: rest) dn
  have h1 : ¬ al.msgid ≠ p.result.msgid := by simp [e1]
  have h2 : ¬ aldap_get_resultcode p.result ≠ LDAP_SUCCESS := by simp [e2]
  have h4 : next_page p.result = some pg := by
    simp [next_page, hpg, aldap_page_control.cookie_len, hc]
  have h5 : ¬ (aldap_request env al).1 = false := by simp [aldap_request, hr]
  refine ⟨dn1, evs ++ [Event.aldap_parse Site.search al.msgid (some p.result),
    Event.aldap_search (some pg) true], ?_, ?_, ?_⟩
  · have hs : p.stream ++ rest = p.entries.map some ++ (some p.result :: rest) := by
      simp [Page.stream]
    rw [hs, i1, ldapc_search_loop_page env ls p.result rest al dn1 pg h1 h2 e3 h4 h5]
    simp [Ret.after, aldap_request]
  · rw [searches_append, i2]
    rfl
  · rw [closes_append, i3]
    rfl

/-- A page whose terminal result carries no cookie, or an empty one: the loop
returns 0 with the handle open. -/
theorem ldapc_search_loop_last (env : Env) (ls : struct_ldapc_search) (al : aldap)
    (p : Page) (hp : page_well al.msgid p)
    (hpg : ∀ pg, p.result.page = some pg → pg.cookie = [])
    (rest : List (Option aldap_message)) (dn : Option String) :
    ∃ evs, ldapc_search_loop env ls (p.stream ++ rest) al dn =
        { ret := 0, ldap_al := some al, inbox := rest, trace := evs } ∧
      searches evs = [] ∧ closes evs = 0 := by
  obtain ⟨he, e1, e2, e3⟩ := hp
  obtain ⟨dn1, evs, i1, i2, i3⟩ :=
    ldapc_search_loop_entries env ls al p.entries he (some p.result :: rest) dn
  have h4 : next_page p.result = none := by
    unfold next_page
    cases hq : p.result.page with
    | none => rfl
    | some pg => simp [aldap_page_control.cookie_len, hpg pg hq]
  refine ⟨evs ++ [Event.aldap_parse Site.search al.msgid (some p.result)], ?_, ?_, ?_⟩
  · have hs : p.stream ++ rest = p.entries.map some ++ (some p.result :: rest) := by
      simp [Page.stream]
    rw [hs, i1, ldapc_search_loop]
    simp [e1, e2, e3, h4, Ret.after]
  · rw [searches_append, i2]
    rfl
  · rw [closes_append, i3]
    rfl

/-- The loop over `pages`, each ending with a cookie, then over a last page
without one: one request per page of `pages`, each with the page control of
that page, then 0. -/
theorem ldapc_search_loop_pages (env : Env) (ls : struct_ldapc_search)
    (pages : List Page) (last : Page) (rest : List (Option aldap_message)) (al : aldap)
    (dn : Option String)
    (hpages : pages_well al.msgid pages)
    (hlast : page_well (al.msgid + pages.length) last)
    (hend : ∀ pg, last.result.page = some pg → pg.cookie = [])
    (hreq : ∀ i : Nat, i < pages.length → env.request (al.msgid + 1 + i) = true) :
    (ldapc_search_loop env ls (pages_stream pages ++ last.stream ++ rest) al dn).ret = 0 ∧
    (ldapc_search_loop env ls (pages_stream pages ++ last.stream ++ rest) al dn).ldap_al =
      some { msgid := al.msgid + pages.length } ∧
    (ldapc_search_loop env ls (pages_stream pages ++ last.stream ++ rest) al dn).inbox = rest ∧
    searches (ldapc_search_loop env ls (pages_stream pages ++ last.stream ++ rest) al dn).trace =
      pages.map (fun p => (p.result.page, true)) ∧
    closes (ldapc_search_loop env ls (pages_stream pages ++ last.stream ++ rest) al dn).trace
      = 0 := by
  induction pages generalizing al dn with
  | nil =>
      have hl : page_well al.msgid last := by simpa using hlast
      obtain ⟨evs, i1, i2, i3⟩ := ldapc_search_loop_last env ls al last hl hend rest dn
      simp only [pages_stream, List.nil_append, i1, List.map_nil, List.length_nil]
      simp [i2, i3]
  | cons p ps ih =>
      obtain ⟨hp, ⟨pg, hpg, hc⟩, hps⟩ := hpages
      have hr : env.request (al.msgid + 1) = true := by
        simpa using hreq 0 (by simp)
      obtain ⟨dn1, evs, i1, i2, i3⟩ :=
        ldapc_search_loop_next env ls al p hp pg hpg hc hr (pages_stream ps ++ last.stream ++ rest) dn
      have hs : pages_stream (p :: ps) ++ last.stream ++ rest =
          p.stream ++ (pages_stream ps ++ last.stream ++ rest) := by
        simp [pages_stream, List.append_assoc]
      have hl1 : page_well ((({ msgid := al.msgid + 1 } : aldap)).msgid + ps.length) last := by
        have : al.msgid + 1 + (ps.length : Int) = al.msgid + ((p :: ps).length : Nat) := by
          simp only [List.length_cons, Nat.cast_add, Nat.cast_one]
          ring
        simpa [this] using hlast
      have hreq1 : ∀ i : Nat, i < ps.length →
          env.request ((({ msgid := al.msgid + 1 } : aldap)).msgid + 1 + i) = true := by
        intro i hi
        have := hreq (i + 1) (by simpa using hi)
        have he : al.msgid + 1 + ((i + 1 : Nat) : Int) = al.msgid + 1 + 1 + (i : Int) := by
          push_cast
          ring
        rw [he] at this
        exact this
      obtain ⟨j1, j2, j3, j4, j5⟩ := ih { msgid := al.msgid + 1 } dn1 hps hl1 hreq1
      rw [hs, i1]
      refine ⟨j1, ?_, j3, ?_, ?_⟩
      · rw [Ret.after_ldap_al, j2]
        simp only [List.length_cons, Nat.cast_add, Nat.cast_one, Option.some.injEq,
          aldap.mk.injEq]
        ring
      · rw [Ret.after_trace, searches_append, i2, j4]
        simp [hpg]
      · rw [Ret.after_trace, closes_append, i3, j5]

/-! ## The blocks of `ldapc_connect`, outcome by outcome -/

theorem ldapc_connect_starttls_cases (env : Env) (ldap : ldapc) (al : aldap)
    (inbox : List (Option aldap_message)) :
    (ldap.ldap_flags &&& F_STARTTLS = 0 ∧
      ldapc_connect_starttls env ldap al inbox = ⟨true, al, inbox, []⟩) ∨
    (ldap.ldap_flags &&& F_STARTTLS ≠ 0 ∧
      ldapc_connect_starttls env ldap al inbox =
        ⟨false, ⟨al.msgid + 1⟩, inbox, [Event.aldap_req_starttls false]⟩) ∨
    (ldap.ldap_flags &&& F_STARTTLS ≠ 0 ∧
      ldapc_connect_starttls env ldap al inbox =
        ⟨false, ⟨al.msgid + 1⟩, inbox.tail, [Event.aldap_req_starttls true,
          Event.aldap_parse Site.starttls (al.msgid + 1) none]⟩) ∨
    (ldap.ldap_flags &&& F_STARTTLS ≠ 0 ∧ ∃ m rest, inbox = some m :: rest ∧
      (m.msgid ≠ al.msgid + 1 ∨ aldap_get_resultcode m ≠ LDAP_SUCCESS) ∧
      ldapc_connect_starttls env ldap al inbox =
        ⟨false, ⟨al.msgid + 1⟩, rest, [Event.aldap_req_starttls true,
          Event.aldap_parse Site.starttls (al.msgid + 1) (some m)]⟩) ∨
    (ldap.ldap_flags &&& F_STARTTLS ≠ 0 ∧ ∃ m rest, inbox = some m :: rest ∧
      m.msgid = al.msgid + 1 ∧ aldap_get_resultcode m = LDAP_SUCCESS ∧
      ldapc_connect_starttls env ldap al inbox =
        ⟨true, ⟨al.msgid + 1⟩, rest, [Event.aldap_req_starttls true,
          Event.aldap_parse Site.starttls (al.msgid + 1) (some m)]⟩) := by
  unfold ldapc_connect_starttls aldap_parse aldap_request
  by_cases hf : ldap.ldap_flags &&& F_STARTTLS = 0
  · simp [hf]
  · by_cases hr : env.request (al.msgid + 1) = false
    · simp [hf, hr]
    · rcases inbox with _ | ⟨_ | m, rest⟩
      · simp [hf, hr]
      · simp [hf, hr]
      · by_cases hm : m.msgid = al.msgid + 1
        · by_cases hc : aldap_get_resultcode m = LDAP_SUCCESS
          · simp [hf, hr, hm, hc]
            exact ⟨m, rest, ⟨rfl, rfl⟩, hm, hc, rfl, rfl⟩
          · simp [hf, hr, hm, hc]
            exact ⟨m, rest, ⟨rfl, rfl⟩, Or.inr hc, rfl, rfl⟩
        · have hm2 : ¬ al.msgid + 1 = m.msgid := fun h => hm h.symm
          simp [hf, hr, hm, hm2]
          exact ⟨m, rest, ⟨rfl, rfl⟩, Or.inl hm, rfl, rfl⟩

theorem ldapc_connect_bind_cases (env : Env) (ldap : ldapc) (al : aldap)
    (inbox : List (Option aldap_message)) :
    (ldap.ldap_flags &&& F_NEEDAUTH = 0 ∧
      ldapc_connect_bind env ldap al inbox = ⟨true, al, inbox, []⟩) ∨
    (ldap.ldap_flags &&& F_NEEDAUTH ≠ 0 ∧
      ldapc_connect_bind env ldap al inbox =
        ⟨false, ⟨al.msgid + 1⟩, inbox, [Event.aldap_bind false]⟩) ∨
    (ldap.ldap_flags &&& F_NEEDAUTH ≠ 0 ∧
      ldapc_connect_bind env ldap al inbox =
        ⟨false, ⟨al.msgid + 1⟩, inbox.tail, [Event.aldap_bind true,
          Event.aldap_parse Site.bind (al.msgid + 1) none]⟩) ∨
    (ldap.ldap_flags &&& F_NEEDAUTH ≠ 0 ∧ ∃ m rest, inbox = some m :: rest ∧
      (m.msgid ≠ al.msgid + 1 ∨ aldap_get_resultcode m ≠ LDAP_SUCCESS) ∧
      ldapc_connect_bind env ldap al inbox =
        ⟨false, ⟨al.msgid + 1⟩, rest, [Event.aldap_bind true,
          Event.aldap_parse Site.bind (al.msgid + 1) (some m)]⟩) ∨
    (ldap.ldap_flags &&& F_NEEDAUTH ≠ 0 ∧ ∃ m rest, inbox = some m :: rest ∧
      m.msgid = al.msgid + 1 ∧ aldap_get_resultcode m = LDAP_SUCCESS ∧
      ldapc_connect_bind env ldap al inbox =
        ⟨true, ⟨al.msgid + 1⟩, rest, [Event.aldap_bind true,
          Event.aldap_parse Site.bind (al.msgid + 1) (some m)]⟩) := by
  unfold ldapc_connect_bind aldap_parse aldap_request
  by_cases hf : ldap.ldap_flags &&& F_NEEDAUTH = 0
  · simp [hf]
  · by_cases hr : env.request (al.msgid + 1) = false
    · simp [hf, hr]
    · rcases inbox with _ | ⟨_ | m, rest⟩
      · simp [hf, hr]
      · simp [hf, hr]
      · by_cases hm : m.msgid = al.msgid + 1
        · by_cases hc : aldap_get_resultcode m = LDAP_SUCCESS
          · simp [hf, hr, hm, hc]
            exact ⟨m, rest, ⟨rfl, rfl⟩, hm, hc, rfl, rfl⟩
          · simp [hf, hr, hm, hc]
            exact ⟨m, rest, ⟨rfl, rfl⟩, Or.inr hc, rfl, rfl⟩
        · have hm2 : ¬ al.msgid + 1 = m.msgid := fun h => hm h.symm
          simp [hf, hr, hm, hm2]
          exact ⟨m, rest, ⟨rfl, rfl⟩, Or.inl hm, rfl, rfl⟩

theorem ldapc_connect_tls_cases (env : Env) (ldap : ldapc) (al : aldap)
    (inbox : List (Option aldap_message)) :
    (ldap.ldap_flags &&& (F_STARTTLS ||| F_TLS) = 0 ∧
      ldapc_connect_tls env ldap al inbox = ⟨true, al, inbox, []⟩) ∨
    (ldap.ldap_flags &&& (F_STARTTLS ||| F_TLS) ≠ 0 ∧
      ldapc_connect_tls env ldap al inbox = ⟨false, al, inbox, [Event.tls_config_new false]⟩) ∨
    (ldap.ldap_flags &&& (F_STARTTLS ||| F_TLS) ≠ 0 ∧
      ldapc_connect_tls env ldap al inbox =
        ⟨false, al, inbox, [Event.tls_config_new true, Event.tls_config_set_ca_file false]⟩) ∨
    (ldap.ldap_flags &&& (F_STARTTLS ||| F_TLS) ≠ 0 ∧
      ldapc_connect_tls env ldap al inbox =
        ⟨false, al, inbox, [Event.tls_config_new true, Event.tls_config_set_ca_file true,
          Event.aldap_tls false]⟩) ∨
    (ldap.ldap_flags &&& (F_STARTTLS ||| F_TLS) ≠ 0 ∧
      ldapc_connect_tls env ldap al inbox =
        ⟨true, al, inbox, [Event.tls_config_new true, Event.tls_config_set_ca_file true,
          Event.aldap_tls true]⟩) := by
  unfold ldapc_connect_tls
  by_cases hf : ldap.ldap_flags &&& (F_STARTTLS ||| F_TLS) = 0
  · simp [hf]
  · by_cases h1 : env.tls_config_new = false
    · simp [hf, h1]
    · by_cases h2 : env.tls_config_set_ca_file = false
      · simp [hf, h1, h2]
      · by_cases h3 : env.aldap_tls < 0
        · simp [hf, h1, h2, h3]
        · simp [hf, h1, h2, h3]

/-- The flags test of the TLS block. -/
theorem flags_tls_iff (flags : Nat) :
    flags &&& (F_STARTTLS ||| F_TLS) ≠ 0 ↔ (flags &&& F_STARTTLS ≠ 0 ∨ flags &&& F_TLS ≠ 0) := by
  rw [Nat.and_or_distrib_left]
  constructor
  · intro h
    by_contra hc
    push_neg at hc
    rw [hc.1, hc.2] at h
    exact h rfl
  · intro h hc
    have h1 : flags &&& F_STARTTLS = 0 := by
      apply Nat.eq_of_testBit_eq
      intro i
      have := congrArg (fun n => n.testBit i) hc
      simp only [Nat.testBit_or, Nat.zero_testBit, Bool.or_eq_false_iff] at this
      simpa using this.1
    have h2 : flags &&& F_TLS = 0 := by
      apply Nat.eq_of_testBit_eq
      intro i
      have := congrArg (fun n => n.testBit i) hc
      simp only [Nat.testBit_or, Nat.zero_testBit, Bool.or_eq_false_iff] at this
      simpa using this.2
    rcases h with h | h
    · exact h h1
    · exact h h2

/-- The STARTTLS block: its events are STARTTLS events, and it is passed only
through a correlated, successful response. -/
theorem ldapc_connect_starttls_facts (env : Env) (ldap : ldapc) (al : aldap)
    (inbox : List (Option aldap_message)) :
    (∀ e ∈ (ldapc_connect_starttls env ldap al inbox).trace, starttls_step e = true) ∧
    ((ldapc_connect_starttls env ldap al inbox).ok = true →
      ¬ starttls_failed (ldapc_connect_starttls env ldap al inbox).trace) ∧
    ((ldapc_connect_starttls env ldap al inbox).ok = true → ldap.ldap_flags &&& F_STARTTLS ≠ 0 →
      ∃ m, (ldapc_connect_starttls env ldap al inbox).trace =
          [Event.aldap_req_starttls true,
            Event.aldap_parse Site.starttls (al.msgid + 1) (some m)] ∧
        m.msgid = al.msgid + 1 ∧ aldap_get_resultcode m = LDAP_SUCCESS) ∧
    (ldap.ldap_flags &&& F_STARTTLS = 0 →
      (ldapc_connect_starttls env ldap al inbox).trace = []) := by
  rcases ldapc_connect_starttls_cases env ldap al inbox with
    ⟨f1, s1⟩ | ⟨f1, s1⟩ | ⟨f1, s1⟩ | ⟨f1, m1, r1, _, _, s1⟩ | ⟨f1, m1, r1, _, c1, c2, s1⟩ <;>
  simp only [s1] <;>
  simp [starttls_step, starttls_failed, starttls_failure, response_ok, f1]
  exact ⟨c1, c2⟩

/-- The bind block: its events are bind events, and it is passed only through
a correlated, successful response. -/
theorem ldapc_connect_bind_facts (env : Env) (ldap : ldapc) (al : aldap)
    (inbox : List (Option aldap_message)) :
    (∀ e ∈ (ldapc_connect_bind env ldap al inbox).trace, bind_step e = true) ∧
    ((ldapc_connect_bind env ldap al inbox).ok = true →
      ¬ bind_failed (ldapc_connect_bind env ldap al inbox).trace) := by
  rcases ldapc_connect_bind_cases env ldap al inbox with
    ⟨f1, s1⟩ | ⟨f1, s1⟩ | ⟨f1, s1⟩ | ⟨f1, m1, r1, _, _, s1⟩ | ⟨f1, m1, r1, _, c1, c2, s1⟩ <;>
  simp only [s1] <;>
  simp [bind_step, bind_failed, bind_failure, response_ok, f1]
  exact ⟨c1, c2⟩

/-- The TLS block: its events are TLS events, and it is passed only when every
TLS call succeeds. -/
theorem ldapc_connect_tls_facts (env : Env) (ldap : ldapc) (al : aldap)
    (inbox : List (Option aldap_message)) :
    (∀ e ∈ (ldapc_connect_tls env ldap al inbox).trace, tls_step e = true) ∧
    ((ldapc_connect_tls env ldap al inbox).ok = true →
      ¬ tls_failed (ldapc_connect_tls env ldap al inbox).trace) ∧
    ((ldapc_connect_tls env ldap al inbox).ok = true →
      ldap.ldap_flags &&& (F_STARTTLS ||| F_TLS) ≠ 0 →
      (ldapc_connect_tls env ldap al inbox).trace =
        [Event.tls_config_new true, Event.tls_config_set_ca_file true, Event.aldap_tls true]) ∧
    (ldap.ldap_flags &&& (F_STARTTLS ||| F_TLS) = 0 →
      (ldapc_connect_tls env ldap al inbox).trace = []) := by
  rcases ldapc_connect_tls_cases env ldap al inbox with
    ⟨f1, s1⟩ | ⟨f1, s1⟩ | ⟨f1, s1⟩ | ⟨f1, s1⟩ | ⟨f1, s1⟩ <;>
  simp only [s1] <;>
  simp [tls_step, tls_failed, tls_failure, f1]

/-! ## `ldapc_connect`, outcome by outcome -/

/-- The outcomes of `ldapc_connect`: a failure before the handle is opened, or
the blocks in turn until one fails, and then `fail:`. -/
theorem ldapc_connect_shape (env : Env) (ldap : ldapc) (inbox : List (Option aldap_message)) :
    ((ldapc_connect env ldap inbox).ret = -1 ∧
      (ldapc_connect env ldap inbox).ldap_al = ldap.ldap_al ∧
      (ldapc_connect env ldap inbox).trace = []) ∨
    ((ldapc_connect env ldap inbox).ret = -1 ∧ (ldapc_connect env ldap inbox).ldap_al = none ∧
      (ldapc_connect env ldap inbox).trace = [Event.aldap_init false]) ∨
    ∃ (a2 a3 : aldap) (i2 i3 : List (Option aldap_message)),
      ((ldapc_connect_starttls env ldap ⟨0⟩ inbox).ok = false ∧
        (ldapc_connect env ldap inbox).ret = -1 ∧ (ldapc_connect env ldap inbox).ldap_al = none ∧
        (ldapc_connect env ldap inbox).trace =
          Event.aldap_init true :: (ldapc_connect_starttls env ldap ⟨0⟩ inbox).trace ++
            [Event.aldap_close]) ∨
      ((ldapc_connect_starttls env ldap ⟨0⟩ inbox).ok = true ∧
        (ldapc_connect_tls env ldap a2 i2).ok = false ∧
        (ldapc_connect env ldap inbox).ret = -1 ∧ (ldapc_connect env ldap inbox).ldap_al = none ∧
        (ldapc_connect env ldap inbox).trace =
          Event.aldap_init true :: ((ldapc_connect_starttls env ldap ⟨0⟩ inbox).trace ++
            (ldapc_connect_tls env ldap a2 i2).trace) ++ [Event.aldap_close]) ∨
      ((ldapc_connect_starttls env ldap ⟨0⟩ inbox).ok = true ∧
        (ldapc_connect_tls env ldap a2 i2).ok = true ∧
        (ldapc_connect_bind env ldap a3 i3).ok = false ∧
        (ldapc_connect env ldap inbox).ret = -1 ∧ (ldapc_connect env ldap inbox).ldap_al = none ∧
        (ldapc_connect env ldap inbox).trace =
          Event.aldap_init true :: ((ldapc_connect_starttls env ldap ⟨0⟩ inbox).trace ++
            (ldapc_connect_tls env ldap a2 i2).trace ++
            (ldapc_connect_bind env ldap a3 i3).trace) ++ [Event.aldap_close]) ∨
      ((ldapc_connect_starttls env ldap ⟨0⟩ inbox).ok = true ∧
        (ldapc_connect_tls env ldap a2 i2).ok = true ∧
        (ldapc_connect_bind env ldap a3 i3).ok = true ∧
        (ldapc_connect env ldap inbox).ret = 0 ∧
        (ldapc_connect env ldap inbox).ldap_al = some (ldapc_connect_bind env ldap a3 i3).al ∧
        (ldapc_connect env ldap inbox).trace =
          Event.aldap_init true :: ((ldapc_connect_starttls env ldap ⟨0⟩ inbox).trace ++
            (ldapc_connect_tls env ldap a2 i2).trace ++
            (ldapc_connect_bind env ldap a3 i3).trace)) := by
  unfold ldapc_connect
  by_cases g1 : env.getaddrinfo ≠ 0
  · left; simp [g1]
  by_cases g2 : connect_loop env.res0 = -1
  · left; simp [g1, g2]
  by_cases g3 : env.aldap_init = false
  · right; left; simp [g1, g2, g3]
  right; right
  simp only [g1, g2, g3, if_false]
  refine ⟨(ldapc_connect_starttls env ldap ⟨0⟩ inbox).al,
    (ldapc_connect_tls env ldap (ldapc_connect_starttls env ldap ⟨0⟩ inbox).al
      (ldapc_connect_starttls env ldap ⟨0⟩ inbox).inbox).al,
    (ldapc_connect_starttls env ldap ⟨0⟩ inbox).inbox,
    (ldapc_connect_tls env ldap (ldapc_connect_starttls env ldap ⟨0⟩ inbox).al
      (ldapc_connect_starttls env ldap ⟨0⟩ inbox).inbox).inbox, ?_⟩
  by_cases k1 : (ldapc_connect_starttls env ldap ⟨0⟩ inbox).ok = false
  · left; simp [k1, fail, ldapc_disconnect]
  by_cases k2 : (ldapc_connect_tls env ldap (ldapc_connect_starttls env ldap ⟨0⟩ inbox).al
      (ldapc_connect_starttls env ldap ⟨0⟩ inbox).inbox).ok = false
  · right; left; simp [k1, k2, fail, ldapc_disconnect]
  by_cases k3 : (ldapc_connect_bind env ldap
      (ldapc_connect_tls env ldap (ldapc_connect_starttls env ldap ⟨0⟩ inbox).al
        (ldapc_connect_starttls env ldap ⟨0⟩ inbox).inbox).al
      (ldapc_connect_tls env ldap (ldapc_connect_starttls env ldap ⟨0⟩ inbox).al
        (ldapc_connect_starttls env ldap ⟨0⟩ inbox).inbox).inbox).ok = false
  · right; right; left; simp [k1, k2, k3, fail, ldapc_disconnect]
  · right; right; right; simp [k1, k2, k3]

/-- A run of `ldapc_connect` that opens the handle: the events of the three
blocks in turn, and `aldap_close` at the end exactly when it fails; a block is
entered only when the blocks before it did not fail. -/
theorem ldapc_connect_run (env : Env) (ldap : ldapc) (inbox : List (Option aldap_message)) :
    ((ldapc_connect env ldap inbox).ret = -1 ∧
      (ldapc_connect env ldap inbox).ldap_al = ldap.ldap_al ∧
      (ldapc_connect env ldap inbox).trace = []) ∨
    ((ldapc_connect env ldap inbox).ret = -1 ∧ (ldapc_connect env ldap inbox).ldap_al = none ∧
      (ldapc_connect env ldap inbox).trace = [Event.aldap_init false]) ∨
    ∃ t1 t2 t3 tail : List Event,
      (ldapc_connect env ldap inbox).trace = Event.aldap_init true :: (t1 ++ t2 ++ t3) ++ tail ∧
      (∀ e ∈ t1, starttls_step e = true) ∧ (∀ e ∈ t2, tls_step e = true) ∧
      (∀ e ∈ t3, bind_step e = true) ∧
      (((ldapc_connect env ldap inbox).ret = 0 ∧
          (∃ al, (ldapc_connect env ldap inbox).ldap_al = some al) ∧ tail = [] ∧
          ¬ starttls_failed t1 ∧ ¬ tls_failed t2 ∧ ¬ bind_failed t3 ∧
          (ldap.ldap_flags &&& F_STARTTLS ≠ 0 →
            ∃ m, t1 = [Event.aldap_req_starttls true,
                Event.aldap_parse Site.starttls 1 (some m)] ∧
              m.msgid = 1 ∧ aldap_get_resultcode m = LDAP_SUCCESS) ∧
          (ldap.ldap_flags &&& F_STARTTLS = 0 → t1 = []) ∧
          (ldap.ldap_flags &&& (F_STARTTLS ||| F_TLS) ≠ 0 →
            t2 = [Event.tls_config_new true, Event.tls_config_set_ca_file true,
              Event.aldap_tls true]) ∧
          (ldap.ldap_flags &&& (F_STARTTLS ||| F_TLS) = 0 → t2 = [])) ∨
        ((ldapc_connect env ldap inbox).ret = -1 ∧ (ldapc_connect env ldap inbox).ldap_al = none ∧
          tail = [Event.aldap_close] ∧
          ((t2 = [] ∧ t3 = []) ∨ (¬ starttls_failed t1 ∧ t3 = []) ∨
            (¬ starttls_failed t1 ∧ ¬ tls_failed t2)))) := by
  rcases ldapc_connect_shape env ldap inbox with h | h |
    ⟨a2, a3, i2, i3, ⟨k1, r, l, t⟩ | ⟨k1, k2, r, l, t⟩ | ⟨k1, k2, k3, r, l, t⟩ |
      ⟨k1, k2, k3, r, l, t⟩⟩
  · exact Or.inl h
  · exact Or.inr (Or.inl h)
  all_goals
    right; right
    obtain ⟨e1, f1, g1, n1⟩ := ldapc_connect_starttls_facts env ldap ⟨0⟩ inbox
    obtain ⟨e2, f2, g2, n2⟩ := ldapc_connect_tls_facts env ldap a2 i2
    obtain ⟨e3, f3⟩ := ldapc_connect_bind_facts env ldap a3 i3
  · exact ⟨_, [], [], [Event.aldap_close], by simpa using t, e1, by simp, by simp,
      Or.inr ⟨r, l, rfl, Or.inl ⟨rfl, rfl⟩⟩⟩
  · exact ⟨_, _, [], [Event.aldap_close], by simpa using t, e1, e2, by simp,
      Or.inr ⟨r, l, rfl, Or.inr (Or.inl ⟨f1 k1, rfl⟩)⟩⟩
  · exact ⟨_, _, _, [Event.aldap_close], t, e1, e2, e3,
      Or.inr ⟨r, l, rfl, Or.inr (Or.inr ⟨f1 k1, f2 k2⟩)⟩⟩
  · refine ⟨_, _, _, [], by simpa using t, e1, e2, e3,
      Or.inl ⟨r, ⟨_, l⟩, rfl, f1 k1, f2 k2, f3 k3, ?_, n1, g2 k2, n2⟩⟩
    intro hf
    simpa using g1 k1 hf

/-- Events that are not `aldap_close` close nothing. -/
theorem closes_eq_zero (tr : List Event) (h : ∀ e ∈ tr, e ≠ Event.aldap_close) :
    closes tr = 0 := by
  induction tr with
  | nil => rfl
  | cons e tr ih =>
      have he := h e (by simp)
      have := ih (fun x hx => h x (by simp [hx]))
      cases e <;> simp_all [closes]

/-- Events that are not `aldap_search` send no search request. -/
theorem searches_eq_nil (tr : List Event) (h : ∀ e ∈ tr, ∀ pg ok, e ≠ Event.aldap_search pg ok) :
    searches tr = [] := by
  induction tr with
  | nil => rfl
  | cons e tr ih =>
      have he := h e (by simp)
      have := ih (fun x hx => h x (by simp [hx]))
      cases e <;> simp_all [searches]

theorem starttls_step_facts (e : Event) (h : starttls_step e = true) :
    tls_step e = false ∧ bind_step e = false ∧ e ≠ Event.aldap_close ∧
    (∀ pg ok, e ≠ Event.aldap_search pg ok) ∧ tls_failure e = False ∧ bind_failure e = False ∧
    (∀ site id r, e = Event.aldap_parse site id r → site = Site.starttls) := by
  cases e
  case aldap_parse site id r =>
    cases site <;> simp_all [starttls_step, tls_step, bind_step, tls_failure, bind_failure]
  all_goals simp_all [starttls_step, tls_step, bind_step, tls_failure, bind_failure]

theorem tls_step_facts (e : Event) (h : tls_step e = true) :
    starttls_step e = false ∧ bind_step e = false ∧ e ≠ Event.aldap_close ∧
    (∀ pg ok, e ≠ Event.aldap_search pg ok) ∧ starttls_failure e = False ∧
    bind_failure e = False ∧ (∀ site id r, e ≠ Event.aldap_parse site id r) := by
  cases e
  case aldap_parse site id r =>
    cases site <;> simp_all [starttls_step, tls_step, bind_step, starttls_failure, bind_failure]
  all_goals simp_all [starttls_step, tls_step, bind_step, starttls_failure, bind_failure]

theorem bind_step_facts (e : Event) (h : bind_step e = true) :
    starttls_step e = false ∧ tls_step e = false ∧ e ≠ Event.aldap_close ∧
    (∀ pg ok, e ≠ Event.aldap_search pg ok) ∧ starttls_failure e = False ∧
    tls_failure e = False ∧ (∀ site id r, e = Event.aldap_parse site id r → site = Site.bind) := by
  cases e
  case aldap_parse site id r =>
    cases site <;> simp_all [starttls_step, tls_step, bind_step, starttls_failure, tls_failure]
  all_goals simp_all [starttls_step, tls_step, bind_step, starttls_failure, tls_failure]

/-! ## `ldapc_connect`: consequences -/

/-- A response read in `ldapc_connect` whose identifier is not the one of the
outstanding request makes it fail: -1, the handle closed once. -/
theorem ldapc_connect_mismatch (env : Env) (ldap : ldapc) (inbox : List (Option aldap_message))
    (site : Site) (id : Int) (x : aldap_message)
    (h : Event.aldap_parse site id (some x) ∈ (ldapc_connect env ldap inbox).trace)
    (hx : x.msgid ≠ id) :
    (ldapc_connect env ldap inbox).ret = -1 ∧ (ldapc_connect env ldap inbox).ldap_al = none ∧
    closes (ldapc_connect env ldap inbox).trace = 1 := by
  have hbad : ¬ response_ok id (some x) := by
    rintro ⟨m, hm, h1, _⟩
    cases hm
    exact hx h1
  rcases ldapc_connect_run env ldap inbox with ⟨_, _, t⟩ | ⟨_, _, t⟩ |
    ⟨t1, t2, t3, tail, t, e1, e2, e3, ⟨r, _, rfl, f1, f2, f3, _⟩ | ⟨r, l, rfl, _⟩⟩
  · rw [t] at h; simp at h
  · rw [t] at h; simp at h
  · exfalso
    rw [t] at h
    simp only [List.mem_cons, List.mem_append, reduceCtorEq, false_or, List.not_mem_nil,
      or_false] at h
    rcases h with (h | h) | h
    · have hs := (starttls_step_facts _ (e1 _ h)).2.2.2.2.2.2 site id (some x) rfl
      subst hs
      exact f1 ⟨_, h, hbad⟩
    · exact (tls_step_facts _ (e2 _ h)).2.2.2.2.2.2 site id (some x) rfl
    · have hs := (bind_step_facts _ (e3 _ h)).2.2.2.2.2.2 site id (some x) rfl
      subst hs
      exact f3 ⟨_, h, hbad⟩
  · refine ⟨r, l, ?_⟩
    rw [t]
    have c1 := closes_eq_zero t1 (fun e he => (starttls_step_facts e (e1 e he)).2.2.1)
    have c2 := closes_eq_zero t2 (fun e he => (tls_step_facts e (e2 e he)).2.2.1)
    have c3 := closes_eq_zero t3 (fun e he => (bind_step_facts e (e3 e he)).2.2.1)
    simp [closes, c1, c2, c3]

/-- When `ldapc_connect` fails after `aldap_init` has returned a handle, the
handle is closed exactly once and detached. -/
theorem ldapc_connect_fail_closed (env : Env) (ldap : ldapc)
    (inbox : List (Option aldap_message))
    (hi : Event.aldap_init true ∈ (ldapc_connect env ldap inbox).trace)
    (h : (ldapc_connect env ldap inbox).ret = -1) :
    (ldapc_connect env ldap inbox).ldap_al = none ∧
    closes (ldapc_connect env ldap inbox).trace = 1 := by
  rcases ldapc_connect_run env ldap inbox with ⟨_, _, t⟩ | ⟨_, _, t⟩ |
    ⟨t1, t2, t3, tail, t, e1, e2, e3, ⟨r, _⟩ | ⟨r, l, rfl, _⟩⟩
  · rw [t] at hi; simp at hi
  · rw [t] at hi; simp at hi
  · rw [r] at h; exact absurd h (by decide)
  · refine ⟨l, ?_⟩
    rw [t]
    have c1 := closes_eq_zero t1 (fun e he => (starttls_step_facts e (e1 e he)).2.2.1)
    have c2 := closes_eq_zero t2 (fun e he => (tls_step_facts e (e2 e he)).2.2.1)
    have c3 := closes_eq_zero t3 (fun e he => (bind_step_facts e (e3 e he)).2.2.1)
    simp [closes, c1, c2, c3]

/-- No search request is sent by `ldapc_connect`, and it returns 0 or -1. -/
theorem ldapc_connect_searches (env : Env) (ldap : ldapc) (inbox : List (Option aldap_message)) :
    searches (ldapc_connect env ldap inbox).trace = [] ∧
    ((ldapc_connect env ldap inbox).ret = 0 ∨ (ldapc_connect env ldap inbox).ret = -1) := by
  rcases ldapc_connect_run env ldap inbox with ⟨r, _, t⟩ | ⟨r, _, t⟩ |
    ⟨t1, t2, t3, tail, t, e1, e2, e3, h⟩
  · rw [t]; exact ⟨rfl, Or.inr r⟩
  · rw [t]; exact ⟨rfl, Or.inr r⟩
  · have c1 := searches_eq_nil t1 (fun e he => (starttls_step_facts e (e1 e he)).2.2.2.1)
    have c2 := searches_eq_nil t2 (fun e he => (tls_step_facts e (e2 e he)).2.2.2.1)
    have c3 := searches_eq_nil t3 (fun e he => (bind_step_facts e (e3 e he)).2.2.2.1)
    rcases h with ⟨r, _, rfl, _⟩ | ⟨r, _, rfl, _⟩
    · rw [t]; exact ⟨by simp [searches, c1, c2, c3], Or.inl r⟩
    · rw [t]; exact ⟨by simp [searches, c1, c2, c3], Or.inr r⟩

/-- When `ldapc_connect` does not return -1 the handle is attached. -/
theorem ldapc_connect_handle (env : Env) (ldap : ldapc) (inbox : List (Option aldap_message))
    (h : (ldapc_connect env ldap inbox).ret ≠ -1) :
    ∃ al, (ldapc_connect env ldap inbox).ldap_al = some al := by
  rcases ldapc_connect_run env ldap inbox with ⟨r, _, t⟩ | ⟨r, _, t⟩ |
    ⟨t1, t2, t3, tail, t, e1, e2, e3, ⟨r, l, _⟩ | ⟨r, _⟩⟩
  · exact absurd r h
  · exact absurd r h
  · exact l
  · exact absurd r h

/-- A failed STARTTLS negotiation ends `ldapc_connect` before the TLS block. -/
theorem ldapc_connect_starttls_failed (env : Env) (ldap : ldapc)
    (inbox : List (Option aldap_message))
    (h : starttls_failed (ldapc_connect env ldap inbox).trace) :
    (ldapc_connect env ldap inbox).ret = -1 ∧
    ∀ e ∈ (ldapc_connect env ldap inbox).trace, tls_step e = false ∧ bind_step e = false := by
  obtain ⟨x, hx, hf⟩ := h
  rcases ldapc_connect_run env ldap inbox with ⟨_, _, t⟩ | ⟨_, _, t⟩ |
    ⟨t1, t2, t3, tail, t, e1, e2, e3, h⟩
  · rw [t] at hx; simp at hx
  · rw [t] at hx
    simp only [List.mem_singleton] at hx
    subst hx
    exact absurd hf (by simp [starttls_failure])
  · have hx1 : x ∈ t1 := by
      have hxs : x = Event.aldap_init true ∨ x ∈ t1 ∨ x ∈ t2 ∨ x ∈ t3 ∨ x ∈ tail := by
        rw [t] at hx
        simp only [List.mem_cons, List.mem_append] at hx
        tauto
      rcases hxs with rfl | hx | hx | hx | hx
      · exact absurd hf (by simp [starttls_failure])
      · exact hx
      · have := (tls_step_facts x (e2 x hx)).2.2.2.2.1
        rw [this] at hf
        exact hf.elim
      · have := (bind_step_facts x (e3 x hx)).2.2.2.2.1
        rw [this] at hf
        exact hf.elim
      · rcases h with ⟨_, _, rfl, _⟩ | ⟨_, _, rfl, _⟩
        · simp at hx
        · simp only [List.mem_singleton] at hx
          subst hx
          exact absurd hf (by simp [starttls_failure])
    have hfail : starttls_failed t1 := ⟨x, hx1, hf⟩
    rcases h with ⟨_, _, _, f1, _⟩ | ⟨r, _, rfl, ⟨rfl, rfl⟩ | ⟨f1, _⟩ | ⟨f1, _⟩⟩
    · exact absurd hfail f1
    · refine ⟨r, ?_⟩
      intro e he
      rw [t] at he
      simp only [List.append_nil, List.mem_cons, List.mem_append, List.mem_singleton,
        List.not_mem_nil, or_false] at he
      rcases he with (rfl | he) | rfl
      · simp [tls_step, bind_step]
      · exact ⟨(starttls_step_facts e (e1 e he)).1, (starttls_step_facts e (e1 e he)).2.1⟩
      · simp [tls_step, bind_step]
    · exact absurd hfail f1
    · exact absurd hfail f1

/-- A failed TLS wrap ends `ldapc_connect` before the bind block. -/
theorem ldapc_connect_tls_failed (env : Env) (ldap : ldapc)
    (inbox : List (Option aldap_message))
    (h : tls_failed (ldapc_connect env ldap inbox).trace) :
    (ldapc_connect env ldap inbox).ret = -1 ∧
    ∀ e ∈ (ldapc_connect env ldap inbox).trace, bind_step e = false := by
  obtain ⟨x, hx, hf⟩ := h
  rcases ldapc_connect_run env ldap inbox with ⟨_, _, t⟩ | ⟨_, _, t⟩ |
    ⟨t1, t2, t3, tail, t, e1, e2, e3, h⟩
  · rw [t] at hx; simp at hx
  · rw [t] at hx
    simp only [List.mem_singleton] at hx
    subst hx
    exact absurd hf (by simp [tls_failure])
  · have hx1 : x ∈ t2 := by
      have hxs : x = Event.aldap_init true ∨ x ∈ t1 ∨ x ∈ t2 ∨ x ∈ t3 ∨ x ∈ tail := by
        rw [t] at hx
        simp only [List.mem_cons, List.mem_append] at hx
        tauto
      rcases hxs with rfl | hx | hx | hx | hx
      · exact absurd hf (by simp [tls_failure])
      · have := (starttls_step_facts x (e1 x hx)).2.2.2.2.1
        rw [this] at hf
        exact hf.elim
      · exact hx
      · have := (bind_step_facts x (e3 x hx)).2.2.2.2.2.1
        rw [this] at hf
        exact hf.elim
      · rcases h with ⟨_, _, rfl, _⟩ | ⟨_, _, rfl, _⟩
        · simp at hx
        · simp only [List.mem_singleton] at hx
          subst hx
          exact absurd hf (by simp [tls_failure])
    have hfail : tls_failed t2 := ⟨x, hx1, hf⟩
    rcases h with ⟨_, _, _, _, f2, _⟩ | ⟨r, _, rfl, ⟨rfl, rfl⟩ | ⟨_, rfl⟩ | ⟨_, f2⟩⟩
    · exact absurd hfail f2
    · simp at hx1
    · refine ⟨r, ?_⟩
      intro e he
      rw [t] at he
      simp only [List.append_nil, List.mem_cons, List.mem_append, List.mem_singleton,
        List.not_mem_nil, or_false] at he
      rcases he with (rfl | he | he) | rfl
      · simp [bind_step]
      · exact (starttls_step_facts e (e1 e he)).2.1
      · exact (tls_step_facts e (e2 e he)).2.1
      · simp [bind_step]
    · exact absurd hfail f2

/-- A failed bind makes `ldapc_connect` return -1. -/
theorem ldapc_connect_bind_failed (env : Env) (ldap : ldapc)
    (inbox : List (Option aldap_message))
    (h : bind_failed (ldapc_connect env ldap inbox).trace) :
    (ldapc_connect env ldap inbox).ret = -1 := by
  obtain ⟨x, hx, hf⟩ := h
  rcases ldapc_connect_run env ldap inbox with ⟨r, _, t⟩ | ⟨r, _, t⟩ |
    ⟨t1, t2, t3, tail, t, e1, e2, e3, ⟨_, _, rfl, _, _, f3, _⟩ | ⟨r, _⟩⟩
  · exact r
  · exact r
  · exfalso
    have hxs : x = Event.aldap_init true ∨ x ∈ t1 ∨ x ∈ t2 ∨ x ∈ t3 := by
      rw [t] at hx
      simp only [List.mem_cons, List.mem_append, List.not_mem_nil, or_false] at hx
      tauto
    rcases hxs with rfl | hx | hx | hx
    · exact absurd hf (by simp [bind_failure])
    · have := (starttls_step_facts x (e1 x hx)).2.2.2.2.2.1
      rw [this] at hf
      exact hf
    · have := (tls_step_facts x (e2 x hx)).2.2.2.2.2.1
      rw [this] at hf
      exact hf
    · exact f3 ⟨x, hx, hf⟩
  · exact r

/-- When `ldapc_connect` fails the process exits with status 1 and no search
request is sent. -/
theorem main_connect_failed (env : Env) (ldap : ldapc) (ls : struct_ldapc_search)
    (inbox : List (Option aldap_message)) (h : (ldapc_connect env ldap inbox).ret ≠ 0) :
    (ldapc_connect env ldap inbox).ret = -1 ∧ (main env ldap ls inbox).status = 1 ∧
    searches (main env ldap ls inbox).trace = [] := by
  obtain ⟨hs, hr⟩ := ldapc_connect_searches env ldap inbox
  have r : (ldapc_connect env ldap inbox).ret = -1 := by
    rcases hr with hr | hr
    · exact absurd hr h
    · exact hr
  refine ⟨r, ?_, ?_⟩
  · simp [main, r]
  · simp [main, r, hs]

/-! ## `ldapc_search`: consequences -/

/-- The text `ldapc_search` writes is the rendering of the entries it writes. -/
theorem ldapc_search_stdout (env : Env) (al : aldap) (ls : struct_ldapc_search)
    (inbox : List (Option aldap_message)) :
    stdout (ldapc_search env al ls inbox).trace =
      render ls.ls_basedn (written (ldapc_search env al ls inbox).trace) := by
  unfold ldapc_search
  split_ifs with h
  · rfl
  · have := ldapc_search_loop_stdout env ls inbox (aldap_request env al).2 none (Or.inl rfl)
    simpa [stdout, written, render] using this

/-- The rendering of a list of entries, entry by entry. -/
theorem render_from_append (basedn : String) (first : Bool) (pre : List aldap_message)
    (m : aldap_message) (post : List aldap_message) :
    render_from basedn first (pre ++ m :: post) =
      render_from basedn first pre ++
        ((if first = true ∧ pre = [] then "" else "\n") ++ dn_text basedn m ++
          attr_text m.attrs) ++
        render_from basedn false post := by
  induction pre generalizing first with
  | nil => cases first <;> simp [render_from, String.append_assoc]
  | cons x xs ih =>
      rw [List.cons_append, render_from, render_from, ih false]
      simp [String.append_assoc]

/-- A correlated message whose result code is not success ends the loop with
the return value 0 and the handle open. -/
theorem ldapc_search_loop_nonsuccess (env : Env) (ls : struct_ldapc_search) (m : aldap_message)
    (rest : List (Option aldap_message)) (al : aldap) (dn : Option String)
    (h1 : al.msgid = m.msgid) (h2 : aldap_get_resultcode m ≠ LDAP_SUCCESS) :
    ldapc_search_loop env ls (some m :: rest) al dn =
      { ret := 0, ldap_al := some al, inbox := rest,
        trace := [Event.aldap_parse Site.search al.msgid (some m)] } := by
  rw [ldapc_search_loop]
  simp [h1, h2]

/-- When a search request cannot be written, `ldapc_search` returns -1 at once:
the handle stays attached and `aldap_close` is not called. -/
theorem ldapc_search_send_failed (env : Env) (al : aldap) (ls : struct_ldapc_search)
    (inbox : List (Option aldap_message)) (h : env.request (al.msgid + 1) = false) :
    ldapc_search env al ls inbox =
      { ret := -1, ldap_al := some { msgid := al.msgid + 1 }, inbox := inbox,
        trace := [Event.aldap_search none false] } := by
  simp [ldapc_search, aldap_request, h]

/-- The entries `ldapc_search` writes are the messages it reads that pass
every check. -/
theorem ldapc_search_written_eq (env : Env) (al : aldap) (ls : struct_ldapc_search)
    (inbox : List (Option aldap_message)) :
    written (ldapc_search env al ls inbox).trace =
      accepted (ldapc_search env al ls inbox).trace := by
  unfold ldapc_search
  split_ifs with h0
  · rfl
  · have := ldapc_search_loop_written env ls inbox (aldap_request env al).2 none
    simpa [written, accepted] using this

/-- An accepted message has a DN. -/
theorem accepted_dn (tr : List Event) (m : aldap_message) (h : m ∈ accepted tr) :
    aldap_get_dn m ≠ none := by
  induction tr with
  | nil => simp [accepted] at h
  | cons e tr ih =>
      cases e
      case aldap_parse site id r =>
        cases site <;> cases r <;> simp only [accepted] at h <;> try exact ih h
        split_ifs at h with ha
        · rcases List.mem_cons.1 h with rfl | h
          · exact ((accepts_iff id m).1 ha).2.2.2.2
          · exact ih h
        · exact ih h
      all_goals
        simp only [accepted] at h
        exact ih h

/-- A `dn:` line is not empty. -/
theorem dn_line_ne_empty (d : String) : "dn: " ++ d ++ "\n" ≠ "" := by
  intro h
  have := congrArg String.length h
  simp only [String.length_append] at this
  have h1 : "\n".length = 1 := by decide
  have h0 : "".length = 0 := by decide
  omega

/-- The three ways the search loop ends: with 0, the handle attached and not
closed; with -1 through `fail:`, the handle closed once and detached; with -1
after a search request that cannot be written, the handle attached and not
closed. -/
theorem ldapc_search_loop_outcomes (env : Env) (ls : struct_ldapc_search)
    (inbox : List (Option aldap_message)) (al : aldap) (dn : Option String) :
    ((ldapc_search_loop env ls inbox al dn).ret = 0 ∧
      (∃ al1, (ldapc_search_loop env ls inbox al dn).ldap_al = some al1) ∧
      closes (ldapc_search_loop env ls inbox al dn).trace = 0) ∨
    ((ldapc_search_loop env ls inbox al dn).ret = -1 ∧
      (ldapc_search_loop env ls inbox al dn).ldap_al = none ∧
      closes (ldapc_search_loop env ls inbox al dn).trace = 1) ∨
    ((ldapc_search_loop env ls inbox al dn).ret = -1 ∧
      (∃ al1, (ldapc_search_loop env ls inbox al dn).ldap_al = some al1) ∧
      closes (ldapc_search_loop env ls inbox al dn).trace = 0 ∧
      ∃ pre pg, (ldapc_search_loop env ls inbox al dn).trace =
        pre ++ [Event.aldap_search pg false]) := by
  induction inbox, al, dn using ldapc_search_loop.induct env ls with
  | case1 al dn => rw [ldapc_search_loop]; exact Or.inl ⟨rfl, ⟨al, rfl⟩, rfl⟩
  | case2 rest al dn => rw [ldapc_search_loop]; exact Or.inl ⟨rfl, ⟨al, rfl⟩, rfl⟩
  | case3 m rest al dn h1 =>
      rw [ldapc_search_loop]
      simp [h1, fail, ldapc_disconnect, closes]
  | case4 m rest al dn h1 h2 =>
      rw [ldapc_search_loop]
      simp [h1, h2, closes]
  | case5 m rest al dn h1 h2 h3 h4 =>
      rw [ldapc_search_loop]
      simp [h1, h2, h3, h4, closes]
  | case6 m rest al dn h1 h2 h3 pg h4 h5 =>
      rw [ldapc_search_loop]
      simp only [h1, h2, h3, h4, h5, if_false, if_true]
      refine Or.inr (Or.inr ⟨by simp, ⟨_, rfl⟩, by simp [closes],
        [Event.aldap_parse Site.search al.msgid (some m)], some pg, by simp⟩)
  | case7 m rest al dn h1 h2 h3 pg h4 h5 ih =>
      rw [ldapc_search_loop_page env ls m rest al dn pg h1 h2 h3 h4 h5]
      simp only [Ret.after_trace, Ret.after_ret, Ret.after_ldap_al, closes_append]
      rcases ih with ⟨i1, i2, i3⟩ | ⟨i1, i2, i3⟩ | ⟨i1, i2, i3, pre, pg1, i4⟩
      · exact Or.inl ⟨i1, i2, by rw [i3]; rfl⟩
      · exact Or.inr (Or.inl ⟨i1, i2, by rw [i3]; rfl⟩)
      · refine Or.inr (Or.inr ⟨i1, i2, by rw [i3]; rfl, ?_⟩)
        rw [i4, ← List.append_assoc]
        exact ⟨_, _, rfl⟩
  | case8 m rest al dn h1 h2 h3 h4 =>
      rw [ldapc_search_loop]
      simp [h1, h2, h3, h4, fail, ldapc_disconnect, closes]
  | case9 m rest al dn h1 h2 h3 h4 h5 ih =>
      rw [ldapc_search_loop_skip env ls m rest al dn h1 h2 h3 h4 h5]
      simp only [Ret.after_trace, Ret.after_ret, Ret.after_ldap_al, closes_append]
      rcases ih with ⟨i1, i2, i3⟩ | ⟨i1, i2, i3⟩ | ⟨i1, i2, i3, pre, pg1, i4⟩
      · exact Or.inl ⟨i1, i2, by rw [i3]; rfl⟩
      · exact Or.inr (Or.inl ⟨i1, i2, by rw [i3]; rfl⟩)
      · refine Or.inr (Or.inr ⟨i1, i2, by rw [i3]; rfl, ?_⟩)
        rw [i4, ← List.append_assoc]
        exact ⟨_, _, rfl⟩
  | case10 m rest al dn h1 h2 h3 h4 h5 h6 =>
      rw [ldapc_search_loop]
      simp [h1, h2, h3, h4, h5, h6, fail, ldapc_disconnect, closes]
  | case11 m rest al dn h1 h2 h3 h4 h5 searchdn h6 ih =>
      rw [ldapc_search_loop_entry env ls m rest al dn searchdn h1 h2 h3 h4 h5 h6]
      have hc := closes_printf _ (print_printf ls dn searchdn m.attrs)
      simp only [Ret.after_trace, Ret.after_ret, Ret.after_ldap_al, closes_append, hc]
      rcases ih with ⟨i1, i2, i3⟩ | ⟨i1, i2, i3⟩ | ⟨i1, i2, i3, pre, pg1, i4⟩
      · exact Or.inl ⟨i1, i2, by rw [i3]; rfl⟩
      · exact Or.inr (Or.inl ⟨i1, i2, by rw [i3]; rfl⟩)
      · refine Or.inr (Or.inr ⟨i1, i2, by rw [i3]; rfl, ?_⟩)
        rw [i4, ← List.append_assoc]
        exact ⟨_, _, rfl⟩

/-- The three ways `ldapc_search` ends, as for the loop: the only failure that
leaves the handle attached and not closed is a search request that cannot be
written. -/
theorem ldapc_search_outcomes (env : Env) (al : aldap) (ls : struct_ldapc_search)
    (inbox : List (Option aldap_message)) :
    ((ldapc_search env al ls inbox).ret = 0 ∧
      (∃ al1, (ldapc_search env al ls inbox).ldap_al = some al1) ∧
      closes (ldapc_search env al ls inbox).trace = 0) ∨
    ((ldapc_search env al ls inbox).ret = -1 ∧ (ldapc_search env al ls inbox).ldap_al = none ∧
      closes (ldapc_search env al ls inbox).trace = 1) ∨
    ((ldapc_search env al ls inbox).ret = -1 ∧
      (∃ al1, (ldapc_search env al ls inbox).ldap_al = some al1) ∧
      closes (ldapc_search env al ls inbox).trace = 0 ∧
      ∃ pre pg, (ldapc_search env al ls inbox).trace = pre ++ [Event.aldap_search pg false]) := by
  unfold ldapc_search
  split_ifs with h0
  · exact Or.inr (Or.inr ⟨rfl, ⟨_, rfl⟩, rfl, [], none, rfl⟩)
  · simp only [Ret.after_trace, Ret.after_ret, Ret.after_ldap_al, closes_append]
    rcases ldapc_search_loop_outcomes env ls inbox (aldap_request env al).2 none with
      ⟨i1, i2, i3⟩ | ⟨i1, i2, i3⟩ | ⟨i1, i2, i3, pre, pg1, i4⟩
    · exact Or.inl ⟨i1, i2, by rw [i3]; rfl⟩
    · exact Or.inr (Or.inl ⟨i1, i2, by rw [i3]; rfl⟩)
    · refine Or.inr (Or.inr ⟨i1, i2, by rw [i3]; rfl, ?_⟩)
      rw [i4, ← List.append_assoc]
      exact ⟨_, _, rfl⟩

/-! ## The properties -/

/-- C1 (the code departs from the claim): a correlated terminal result with the
result code 4 (size limit exceeded) arrives after one entry was written.
`ldapc_search` logs the failure and leaves the loop, but returns 0, not -1, and
the process exits with status 0. -/
theorem ldapc_search_nonsuccess_returns_zero :
    (ldapc_search env_ok { msgid := 0 } (search_all "")
      [some entry_a, some (result 1 4 none)]).ret = 0 ∧
    stdout (ldapc_search env_ok { msgid := 0 } (search_all "")
      [some entry_a, some (result 1 4 none)]).trace = "dn: cn=a,dc=x\ncn: a\n" ∧
    (main env_ok (session 0) (search_all "") [some entry_a, some (result 1 4 none)]).status
      = 0 := by
  decide

/-- C2 fails as stated: every message is correlated and successful and the
only terminal result carries no cookie (`k = 0`), yet `ldapc_search` returns
-1 after its one request, when a message before the terminal result is not a
search entry (type 19) and when it is a search entry with an attribute for
which `aldap_get_dn` returns `NULL`.  And with one page that carries the
cookie `[7]` and a last page with an empty one (`k = 1`), `ldapc_search`
returns -1 when the second request cannot be written. -/
theorem correlated_stream_search_fails :
    ((reference 1).msgid = 1 ∧ aldap_get_resultcode (reference 1) = LDAP_SUCCESS ∧
      (ldapc_search env_ok { msgid := 0 } (search_all "")
        [some (reference 1), some (result 1 0 none)]).ret = -1 ∧
      searches (ldapc_search env_ok { msgid := 0 } (search_all "")
        [some (reference 1), some (result 1 0 none)]).trace = [(none, true)]) ∧
    (entry_nodn.msgid = 1 ∧ aldap_get_resultcode entry_nodn = LDAP_SUCCESS ∧
      (ldapc_search env_ok { msgid := 0 } (search_all "")
        [some entry_nodn, some (result 1 0 none)]).ret = -1 ∧
      searches (ldapc_search env_ok { msgid := 0 } (search_all "")
        [some entry_nodn, some (result 1 0 none)]).trace = [(none, true)]) ∧
    ((ldapc_search env_second_fails { msgid := 0 } (search_all "")
        (pages_stream [page_one] ++ page_two.stream)).ret = -1 ∧
      searches (ldapc_search env_second_fails { msgid := 0 } (search_all "")
        (pages_stream [page_one] ++ page_two.stream)).trace =
        [(none, true), (some { cookie := [7] }, false)]) := by
  decide

/-- C2, amended: when every request can be written and the inbox holds `k`
pages whose terminal result carries a cookie that is not empty, then a page
whose terminal result carries none or an empty one, all messages correlated
and successful, and every message before a terminal result a search entry
that has a DN when it has attributes, `ldapc_search` returns 0 after exactly
`k + 1` search requests: the first without a page control, each later one
with the page control of the terminal result before it. -/
theorem ldapc_search_pagination (env : Env) (al : aldap) (ls : struct_ldapc_search) (k : Nat)
    (pages : List Page) (last : Page) (rest : List (Option aldap_message))
    (hk : pages.length = k)
    (hpages : pages_well (al.msgid + 1) pages)
    (hlast : page_well (al.msgid + 1 + k) last)
    (hend : ∀ pg, last.result.page = some pg → pg.cookie = [])
    (hreq : ∀ i : Nat, i ≤ k → env.request (al.msgid + 1 + i) = true) :
    (ldapc_search env al ls (pages_stream pages ++ last.stream ++ rest)).ret = 0 ∧
    (searches (ldapc_search env al ls (pages_stream pages ++ last.stream ++ rest)).trace).length
      = k + 1 ∧
    searches (ldapc_search env al ls (pages_stream pages ++ last.stream ++ rest)).trace =
      (none, true) :: pages.map (fun p => (p.result.page, true)) ∧
    (ldapc_search env al ls (pages_stream pages ++ last.stream ++ rest)).ldap_al =
      some { msgid := al.msgid + 1 + k } ∧
    closes (ldapc_search env al ls (pages_stream pages ++ last.stream ++ rest)).trace = 0 := by
  subst hk
  have h0 : ¬ (aldap_request env al).1 = false := by
    have := hreq 0 (Nat.zero_le _)
    simpa [aldap_request] using this
  have hreq1 : ∀ i : Nat, i < pages.length →
      env.request ((aldap_request env al).2.msgid + 1 + i) = true := by
    intro i hi
    have := hreq (i + 1) hi
    have he : al.msgid + 1 + ((i + 1 : Nat) : Int) = al.msgid + 1 + 1 + (i : Int) := by
      push_cast
      ring
    rw [he] at this
    exact this
  obtain ⟨j1, j2, -, j4, j5⟩ := ldapc_search_loop_pages env ls pages last rest
    (aldap_request env al).2 none hpages hlast hend hreq1
  unfold ldapc_search
  rw [if_neg h0]
  refine ⟨j1, ?_, ?_, j2, ?_⟩
  · rw [Ret.after_trace, searches_append, j4]
    simp [searches]
  · rw [Ret.after_trace, searches_append, j4]
    rfl
  · rw [Ret.after_trace, closes_append, j5]
    rfl

/-- Witness of C2, amended: one page with the cookie `[7]`, then a page with an empty
cookie: two requests, the second with the cookie `[7]`. -/
theorem ldapc_search_pagination_witness :
    (ldapc_search env_ok { msgid := 0 } (search_all "")
      (pages_stream [page_one] ++ page_two.stream ++ [])).ret = 0 ∧
    searches (ldapc_search env_ok { msgid := 0 } (search_all "")
      (pages_stream [page_one] ++ page_two.stream ++ [])).trace =
      [(none, true), (some { cookie := [7] }, true)] := by
  have h := ldapc_search_pagination env_ok { msgid := 0 } (search_all "") 1 [page_one] page_two []
    rfl
    (by
      refine ⟨⟨?_, by unfold result_well; decide⟩, ⟨{ cookie := [7] }, rfl, by decide⟩, trivial⟩
      intro m hm
      simp only [page_one, List.mem_singleton] at hm
      subst hm
      unfold entry_well
      decide)
    (by
      refine ⟨?_, by unfold result_well; decide⟩
      intro m hm
      simp only [page_two, List.mem_singleton] at hm
      subst hm
      unfold entry_well
      decide)
    (by
      intro pg hpg
      simp only [page_two, result, Option.some.injEq] at hpg
      subst hpg
      rfl)
    (fun _ _ => rfl)
  exact ⟨h.1, h.2.2.1⟩

/-- C3: a response read while another request is outstanding (its message
identifier differs from the handle's) makes the operation fail, in
`ldapc_connect` (STARTTLS or bind response) and in `ldapc_search` alike: the
return value is -1, the handle is `NULL` and `aldap_close` was called once. -/
theorem mismatched_msgid_fails (env : Env) (ldap : ldapc) (al : aldap)
    (ls : struct_ldapc_search) (inbox : List (Option aldap_message))
    (site : Site) (id : Int) (x : aldap_message) (hx : x.msgid ≠ id) :
    (Event.aldap_parse site id (some x) ∈ (ldapc_connect env ldap inbox).trace →
      (ldapc_connect env ldap inbox).ret = -1 ∧ (ldapc_connect env ldap inbox).ldap_al = none ∧
      closes (ldapc_connect env ldap inbox).trace = 1) ∧
    (Event.aldap_parse site id (some x) ∈ (ldapc_search env al ls inbox).trace →
      (ldapc_search env al ls inbox).ret = -1 ∧ (ldapc_search env al ls inbox).ldap_al = none ∧
      closes (ldapc_search env al ls inbox).trace = 1) := by
  refine ⟨fun h => ldapc_connect_mismatch env ldap inbox site id x h hx, ?_⟩
  intro h
  unfold ldapc_search at h ⊢
  split_ifs at h ⊢ with h0
  · simp at h
  · simp only [Ret.after_trace, List.mem_append, List.mem_singleton, reduceCtorEq,
      false_or] at h
    obtain ⟨i1, i2, i3⟩ :=
      ldapc_search_loop_mismatch env ls inbox (aldap_request env al).2 none site id x h hx
    exact ⟨i1, i2, by rw [Ret.after_trace, closes_append, i3]; rfl⟩

/-- Witness of C3: a bind response with the identifier 7 for the request 1, and
an entry with the identifier 7 for the search request 1. -/
theorem mismatched_msgid_fails_witness :
    ((ldapc_connect env_ok (session F_NEEDAUTH) [some (response 7 0)]).ret = -1 ∧
      (ldapc_connect env_ok (session F_NEEDAUTH) [some (response 7 0)]).ldap_al = none ∧
      closes (ldapc_connect env_ok (session F_NEEDAUTH) [some (response 7 0)]).trace = 1) ∧
    ((ldapc_search env_ok { msgid := 0 } (search_all "")
        [some entry_a, some (entry1 7 "cn=b,dc=x" "cn" "b")]).ret = -1 ∧
      (ldapc_search env_ok { msgid := 0 } (search_all "")
        [some entry_a, some (entry1 7 "cn=b,dc=x" "cn" "b")]).ldap_al = none ∧
      closes (ldapc_search env_ok { msgid := 0 } (search_all "")
        [some entry_a, some (entry1 7 "cn=b,dc=x" "cn" "b")]).trace = 1) :=
  ⟨(mismatched_msgid_fails env_ok (session F_NEEDAUTH) { msgid := 0 } (search_all "")
      [some (response 7 0)] Site.bind 1 (response 7 0) (by decide)).1 (by decide),
   (mismatched_msgid_fails env_ok (session 0) { msgid := 0 } (search_all "")
      [some entry_a, some (entry1 7 "cn=b,dc=x" "cn" "b")] Site.search 1
      (entry1 7 "cn=b,dc=x" "cn" "b") (by decide)).2 (by decide)⟩

/-- C4 fails as stated: a search-entry message with one attribute is received
and not written, when its identifier is 7 instead of 1, and when
`aldap_get_dn` returns `NULL` for it. -/
theorem received_entry_not_written :
    ((received_entries (ldapc_search env_ok { msgid := 0 } (search_all "")
        [some (entry1 7 "cn=a,dc=x" "cn" "a")]).trace).length = 1 ∧
      (written (ldapc_search env_ok { msgid := 0 } (search_all "")
        [some (entry1 7 "cn=a,dc=x" "cn" "a")]).trace).length = 0) ∧
    ((received_entries (ldapc_search env_ok { msgid := 0 } (search_all "")
        [some entry_nodn]).trace).length = 1 ∧
      (written (ldapc_search env_ok { msgid := 0 } (search_all "")
        [some entry_nodn]).trace).length = 0) := by
  decide

/-- C4, amended: the entries `ldapc_search` writes are the messages it reads
that are correlated with the outstanding request, carry the result code
success, are search entries with at least one attribute and have a DN
(`accepted`), so there are as many of the ones as of the others.  A
correlated, successful search entry without attributes is passed over
wherever the loop reads it: the loop goes on as it would without it.  Such a
message at the head of the inbox changes neither the return value, nor the
text written, nor the entries written, nor the handle. -/
theorem ldapc_search_written (env : Env) (al : aldap) (ls : struct_ldapc_search)
    (inbox : List (Option aldap_message)) :
    written (ldapc_search env al ls inbox).trace = accepted (ldapc_search env al ls inbox).trace ∧
    (written (ldapc_search env al ls inbox).trace).length =
      (accepted (ldapc_search env al ls inbox).trace).length ∧
    (∀ (al1 : aldap) (dn : Option String) (rest : List (Option aldap_message))
        (page : Option aldap_page_control) (d : Option String),
      ldapc_search_loop env ls
        (some { msgid := al1.msgid, message_type := LDAP_RES_SEARCH_ENTRY,
                rescode := LDAP_SUCCESS, page := page, dn := d, attrs := [] } :: rest) al1 dn =
        (ldapc_search_loop env ls rest al1 dn).after
          [Event.aldap_parse Site.search al1.msgid
            (some { msgid := al1.msgid, message_type := LDAP_RES_SEARCH_ENTRY,
                    rescode := LDAP_SUCCESS, page := page, dn := d, attrs := [] })]) ∧
    ∀ (page : Option aldap_page_control) (d : Option String),
      (ldapc_search env al ls
        (some { msgid := al.msgid + 1, message_type := LDAP_RES_SEARCH_ENTRY,
                rescode := LDAP_SUCCESS, page := page, dn := d, attrs := [] } :: inbox)).ret =
        (ldapc_search env al ls inbox).ret ∧
      stdout (ldapc_search env al ls
        (some { msgid := al.msgid + 1, message_type := LDAP_RES_SEARCH_ENTRY,
                rescode := LDAP_SUCCESS, page := page, dn := d, attrs := [] } :: inbox)).trace =
        stdout (ldapc_search env al ls inbox).trace ∧
      written (ldapc_search env al ls
        (some { msgid := al.msgid + 1, message_type := LDAP_RES_SEARCH_ENTRY,
                rescode := LDAP_SUCCESS, page := page, dn := d, attrs := [] } :: inbox)).trace =
        written (ldapc_search env al ls inbox).trace ∧
      (ldapc_search env al ls
        (some { msgid := al.msgid + 1, message_type := LDAP_RES_SEARCH_ENTRY,
                rescode := LDAP_SUCCESS, page := page, dn := d, attrs := [] } :: inbox)).ldap_al =
        (ldapc_search env al ls inbox).ldap_al := by
  have hw := ldapc_search_written_eq env al ls inbox
  have hskip : ∀ (al1 : aldap) (dn : Option String) (rest : List (Option aldap_message))
      (page : Option aldap_page_control) (d : Option String),
      ldapc_search_loop env ls
        (some { msgid := al1.msgid, message_type := LDAP_RES_SEARCH_ENTRY,
                rescode := LDAP_SUCCESS, page := page, dn := d, attrs := [] } :: rest) al1 dn =
        (ldapc_search_loop env ls rest al1 dn).after
          [Event.aldap_parse Site.search al1.msgid
            (some { msgid := al1.msgid, message_type := LDAP_RES_SEARCH_ENTRY,
                    rescode := LDAP_SUCCESS, page := page, dn := d, attrs := [] })] := by
    intro al1 dn rest page d
    exact ldapc_search_loop_skip env ls _ rest al1 dn (by simp) (by simp [aldap_get_resultcode])
      (by simp only []; decide) (by simp) (by simp [aldap_count_attrs])
  refine ⟨hw, by rw [hw], hskip, ?_⟩
  intro page d
  unfold ldapc_search
  split_ifs with h0
  · exact ⟨rfl, rfl, rfl, rfl⟩
  · have := hskip (aldap_request env al).2 none inbox page d
    simp only [aldap_request] at this ⊢
    rw [this]
    simp [stdout, written]

/-- C5 fails as stated: with the base DN `dc=x`, the entry `dc=x` arrives as
the second entry, and its `dn:` line is left out all the same. -/
theorem later_base_entry_dn_suppressed :
    written (ldapc_search env_ok { msgid := 0 } (search_all "dc=x")
      [some entry_a, some entry_base, some (result 1 0 none)]).trace = [entry_a, entry_base] ∧
    stdout (ldapc_search env_ok { msgid := 0 } (search_all "dc=x")
      [some entry_a, some entry_base, some (result 1 0 none)]).trace =
      "dn: cn=a,dc=x\ncn: a\n\no: x\n" ∧
    render_first_only "dc=x" true [entry_a, entry_base] =
      "dn: cn=a,dc=x\ncn: a\n\ndn: dc=x\no: x\n" := by
  decide

/-- C5, amended: whatever the place of an entry among the entries written, its
text is a blank line unless it is the first, its `dn:` line unless its DN is
the base DN (`dn_text`), and its attribute lines: the `dn:` line is left out
for every entry whose DN is the base DN, first or later, and only for those. -/
theorem dn_line_suppressed_iff_base (env : Env) (al : aldap) (ls : struct_ldapc_search)
    (inbox : List (Option aldap_message)) (pre : List aldap_message) (m : aldap_message)
    (post : List aldap_message)
    (h : written (ldapc_search env al ls inbox).trace = pre ++ m :: post) :
    stdout (ldapc_search env al ls inbox).trace =
      render ls.ls_basedn pre ++
        ((if pre = [] then "" else "\n") ++ dn_text ls.ls_basedn m ++ attr_text m.attrs) ++
        render_from ls.ls_basedn false post ∧
    (dn_text ls.ls_basedn m = "" ↔ aldap_get_dn m = some ls.ls_basedn) := by
  constructor
  · rw [ldapc_search_stdout, h, render, render_from_append]
    simp [render]
  · have hm : m ∈ accepted (ldapc_search env al ls inbox).trace := by
      rw [← ldapc_search_written_eq, h]
      simp
    have hd := accepted_dn _ m hm
    obtain ⟨d, hd⟩ := Option.ne_none_iff_exists'.1 hd
    unfold dn_text
    rw [hd]
    by_cases hb : ls.ls_basedn = d
    · simp [hb]
    · have hb2 : ¬ d = ls.ls_basedn := fun e => hb e.symm
      simp [hb, hb2, dn_line_ne_empty]

/-- Witness of C5, amended: the entry `dc=x` as the second entry written under
the base DN `dc=x`. -/
theorem dn_line_suppressed_iff_base_witness :
    stdout (ldapc_search env_ok { msgid := 0 } (search_all "dc=x")
      [some entry_a, some entry_base, some (result 1 0 none)]).trace =
      render "dc=x" [entry_a] ++ ("\n" ++ "" ++ "o: x\n") ++ "" :=
  (dn_line_suppressed_iff_base env_ok { msgid := 0 } (search_all "dc=x")
    [some entry_a, some entry_base, some (result 1 0 none)] [entry_a] entry_base []
    (by decide)).1.trans (by decide)

/-- C6 fails as stated: with the base DN `dc=x`, a successful search that
returns the entry `dc=x` writes its attribute line only, without a `dn:`
line. -/
theorem base_entry_without_dn_line :
    (ldapc_search env_ok { msgid := 0 } (search_all "dc=x")
      [some entry_base, some (result 1 0 none)]).ret = 0 ∧
    written (ldapc_search env_ok { msgid := 0 } (search_all "dc=x")
      [some entry_base, some (result 1 0 none)]).trace = [entry_base] ∧
    stdout (ldapc_search env_ok { msgid := 0 } (search_all "dc=x")
      [some entry_base, some (result 1 0 none)]).trace = "o: x\n" ∧
    render_always_dn true [entry_base] = "dn: dc=x\no: x\n" := by
  decide

/-- C6, amended: for every successful search, the text written is, for each
entry written, in the order of arrival: a blank line unless the entry is the
first, then its `dn:` line unless its DN is the base DN, then one line
`name: value` per attribute value, attributes and values in the order of the
message (`render`). -/
theorem ldapc_search_output (env : Env) (al : aldap) (ls : struct_ldapc_search)
    (inbox : List (Option aldap_message)) (_h : (ldapc_search env al ls inbox).ret = 0) :
    stdout (ldapc_search env al ls inbox).trace =
      render ls.ls_basedn (written (ldapc_search env al ls inbox).trace) :=
  ldapc_search_stdout env al ls inbox

/-- Witness of C6: the base DN is empty, the entries `cn=a,dc=x` and
`cn=b,dc=x` arrive, then a success result without a page control; the text is
as expected and the return value is 0. -/
theorem ldapc_search_output_witness :
    (ldapc_search env_ok { msgid := 0 } (search_all "")
      [some entry_a, some entry_b, some (result 1 0 none)]).ret = 0 ∧
    stdout (ldapc_search env_ok { msgid := 0 } (search_all "")
      [some entry_a, some entry_b, some (result 1 0 none)]).trace =
      "dn: cn=a,dc=x\ncn: a\n\ndn: cn=b,dc=x\ncn: b\n" ∧
    (main env_ok (session 0) (search_all "")
      [some entry_a, some entry_b, some (result 1 0 none)]).status = 0 :=
  ⟨by decide,
   (ldapc_search_output env_ok { msgid := 0 } (search_all "")
      [some entry_a, some entry_b, some (result 1 0 none)] (by decide)).trans (by decide),
   by decide⟩

/-- C7 fails as stated: with the STARTTLS flag alone, a successful
`ldapc_connect` runs the STARTTLS negotiation and then the TLS wrap as
well. -/
theorem starttls_flag_alone_wraps :
    F_STARTTLS &&& F_TLS = 0 ∧
    (ldapc_connect env_ok (session F_STARTTLS) [some (response 1 0)]).ret = 0 ∧
    (ldapc_connect env_ok (session F_STARTTLS) [some (response 1 0)]).trace =
      [Event.aldap_init true, Event.aldap_req_starttls true,
        Event.aldap_parse Site.starttls 1 (some (response 1 0)), Event.tls_config_new true,
        Event.tls_config_set_ca_file true, Event.aldap_tls true] := by
  decide

/-- C7, amended: in a run of `ldapc_connect` that returns 0, with the STARTTLS
flag (with or without the TLS flag) the STARTTLS request is sent, its response
is read, correlated and successful, and then the TLS wrap runs, each once;
with the TLS flag alone the TLS wrap runs once and no STARTTLS request is
sent; with neither flag there is no STARTTLS request and no TLS wrap. -/
theorem ldapc_connect_secure_channel (env : Env) (ldap : ldapc)
    (inbox : List (Option aldap_message)) (h : (ldapc_connect env ldap inbox).ret = 0) :
    (ldap.ldap_flags &&& F_STARTTLS ≠ 0 →
      ∃ m rest, (ldapc_connect env ldap inbox).trace =
          [Event.aldap_init true, Event.aldap_req_starttls true,
            Event.aldap_parse Site.starttls 1 (some m), Event.tls_config_new true,
            Event.tls_config_set_ca_file true, Event.aldap_tls true] ++ rest ∧
        m.msgid = 1 ∧ aldap_get_resultcode m = LDAP_SUCCESS ∧
        ∀ e ∈ rest, secure_step e = false) ∧
    (ldap.ldap_flags &&& F_STARTTLS = 0 → ldap.ldap_flags &&& F_TLS ≠ 0 →
      ∃ rest, (ldapc_connect env ldap inbox).trace =
          [Event.aldap_init true, Event.tls_config_new true,
            Event.tls_config_set_ca_file true, Event.aldap_tls true] ++ rest ∧
        ∀ e ∈ rest, secure_step e = false) ∧
    (ldap.ldap_flags &&& F_STARTTLS = 0 → ldap.ldap_flags &&& F_TLS = 0 →
      ∀ e ∈ (ldapc_connect env ldap inbox).trace, secure_step e = false) := by
  rcases ldapc_connect_run env ldap inbox with ⟨r, _⟩ | ⟨r, _⟩ |
    ⟨t1, t2, t3, tail, t, e1, e2, e3, ⟨_, _, rfl, _, _, _, g1, n1, g2, n2⟩ | ⟨r, _⟩⟩
  · rw [r] at h; exact absurd h (by decide)
  · rw [r] at h; exact absurd h (by decide)
  · have h3 : ∀ e ∈ t3, secure_step e = false := by
      intro e he
      have := bind_step_facts e (e3 e he)
      simp [secure_step, this.1, this.2.1]
    refine ⟨?_, ?_, ?_⟩
    · intro hf
      obtain ⟨m, rfl, hm1, hm2⟩ := g1 hf
      have h2 := g2 ((flags_tls_iff _).2 (Or.inl hf))
      subst h2
      exact ⟨m, t3, by rw [t]; simp, hm1, hm2, h3⟩
    · intro hf ht
      have h1 := n1 hf
      have h2 := g2 ((flags_tls_iff _).2 (Or.inr ht))
      subst h1 h2
      exact ⟨t3, by rw [t]; simp, h3⟩
    · intro hf ht
      have h1 := n1 hf
      have h2 := n2 (by
        by_contra hc
        rcases (flags_tls_iff _).1 hc with hc | hc
        · exact hc hf
        · exact hc ht)
      subst h1 h2
      intro e he
      rw [t] at he
      simp only [List.nil_append, List.append_nil, List.mem_cons] at he
      rcases he with rfl | he
      · rfl
      · exact h3 e he
  · rw [r] at h; exact absurd h (by decide)

/-- Witness of C7, amended: both flags set, every call succeeds. -/
theorem ldapc_connect_secure_channel_witness :
    (ldapc_connect env_ok (session (F_STARTTLS ||| F_TLS)) [some (response 1 0)]).ret = 0 ∧
    ∃ m rest, (ldapc_connect env_ok (session (F_STARTTLS ||| F_TLS))
          [some (response 1 0)]).trace =
        [Event.aldap_init true, Event.aldap_req_starttls true,
          Event.aldap_parse Site.starttls 1 (some m), Event.tls_config_new true,
          Event.tls_config_set_ca_file true, Event.aldap_tls true] ++ rest ∧
      m.msgid = 1 ∧ aldap_get_resultcode m = LDAP_SUCCESS ∧
      ∀ e ∈ rest, secure_step e = false :=
  ⟨by decide,
   (ldapc_connect_secure_channel env_ok (session (F_STARTTLS ||| F_TLS)) [some (response 1 0)]
      (by decide)).1 (by decide)⟩

/-- C8: a failure aborts what remains.  In every run of `ldapc_connect`: when
the STARTTLS negotiation fails, it returns -1 and there is neither a TLS step
nor a bind step; when the TLS wrap fails, it returns -1 and there is no bind
step; when the bind fails (as with a bind response whose result code is not
success), it returns -1; and whenever `ldapc_connect` does not return 0, it
returns -1, the process exits with status 1 and no search request is sent. -/
theorem failure_aborts_remaining_stages (env : Env) (ldap : ldapc) (ls : struct_ldapc_search)
    (inbox : List (Option aldap_message)) :
    (starttls_failed (ldapc_connect env ldap inbox).trace →
      (ldapc_connect env ldap inbox).ret = -1 ∧
      ∀ e ∈ (ldapc_connect env ldap inbox).trace, tls_step e = false ∧ bind_step e = false) ∧
    (tls_failed (ldapc_connect env ldap inbox).trace →
      (ldapc_connect env ldap inbox).ret = -1 ∧
      ∀ e ∈ (ldapc_connect env ldap inbox).trace, bind_step e = false) ∧
    (bind_failed (ldapc_connect env ldap inbox).trace →
      (ldapc_connect env ldap inbox).ret = -1) ∧
    ((ldapc_connect env ldap inbox).ret ≠ 0 →
      (ldapc_connect env ldap inbox).ret = -1 ∧ (main env ldap ls inbox).status = 1 ∧
      searches (main env ldap ls inbox).trace = []) :=
  ⟨ldapc_connect_starttls_failed env ldap inbox, ldapc_connect_tls_failed env ldap inbox,
    ldapc_connect_bind_failed env ldap inbox, main_connect_failed env ldap ls inbox⟩

/-- Witness of C8: a STARTTLS response with the result code 2; a TLS handshake
that fails after a successful STARTTLS negotiation; a bind response with the
result code invalid-credentials, after which the process exits with status 1
without a search request. -/
theorem failure_aborts_remaining_stages_witness :
    ((ldapc_connect env_ok (session (F_STARTTLS ||| F_NEEDAUTH)) [some (response 1 2)]).ret = -1 ∧
      ∀ e ∈ (ldapc_connect env_ok (session (F_STARTTLS ||| F_NEEDAUTH))
          [some (response 1 2)]).trace, tls_step e = false ∧ bind_step e = false) ∧
    ((ldapc_connect env_tls_fails (session (F_STARTTLS ||| F_NEEDAUTH))
        [some (response 1 0)]).ret = -1 ∧
      ∀ e ∈ (ldapc_connect env_tls_fails (session (F_STARTTLS ||| F_NEEDAUTH))
          [some (response 1 0)]).trace, bind_step e = false) ∧
    ((ldapc_connect env_ok (session F_NEEDAUTH)
        [some (response 1 LDAP_INVALID_CREDENTIALS)]).ret = -1 ∧
      (main env_ok (session F_NEEDAUTH) (search_all "")
        [some (response 1 LDAP_INVALID_CREDENTIALS)]).status = 1 ∧
      searches (main env_ok (session F_NEEDAUTH) (search_all "")
        [some (response 1 LDAP_INVALID_CREDENTIALS)]).trace = []) :=
  ⟨(failure_aborts_remaining_stages env_ok (session (F_STARTTLS ||| F_NEEDAUTH)) (search_all "")
      [some (response 1 2)]).1
      ⟨Event.aldap_parse Site.starttls 1 (some (response 1 2)), by decide, by
        rintro ⟨m, hm, _, hc⟩
        cases hm
        exact absurd hc (by decide)⟩,
   (failure_aborts_remaining_stages env_tls_fails (session (F_STARTTLS ||| F_NEEDAUTH))
      (search_all "") [some (response 1 0)]).2.1
      ⟨Event.aldap_tls false, by decide, rfl⟩,
   (failure_aborts_remaining_stages env_ok (session F_NEEDAUTH) (search_all "")
      [some (response 1 LDAP_INVALID_CREDENTIALS)]).2.2.2
      (by
        rw [(failure_aborts_remaining_stages env_ok (session F_NEEDAUTH) (search_all "")
          [some (response 1 LDAP_INVALID_CREDENTIALS)]).2.2.1
          ⟨Event.aldap_parse Site.bind 1 (some (response 1 LDAP_INVALID_CREDENTIALS)),
            by decide, by
              rintro ⟨m, hm, _, hc⟩
              cases hm
              exact absurd hc (by decide)⟩]
        decide)⟩

/-- C9 (the code departs from the claim): when the search request cannot be
written, `ldapc_search` returns -1 at once, the handle is still attached and
`aldap_close` has not been called; the process then exits with status 1
without having closed the connection. -/
theorem ldapc_search_send_failure_not_closed :
    (ldapc_search env_nosend { msgid := 0 } (search_all "") []).ret = -1 ∧
    (ldapc_search env_nosend { msgid := 0 } (search_all "") []).ldap_al = some { msgid := 1 } ∧
    closes (ldapc_search env_nosend { msgid := 0 } (search_all "") []).trace = 0 ∧
    (main env_nosend (session 0) (search_all "") []).status = 1 ∧
    (main env_nosend (session 0) (search_all "") []).trace =
      [Event.aldap_init true, Event.aldap_search none false] := by
  decide

/-- C10: when `aldap_parse` returns `NULL` in the search loop, `ldapc_search`
returns 0 with the handle attached and not closed, and that call is the last
event of the search: what was written before stays written, and no further
search request is sent. -/
theorem ldapc_search_parse_null (env : Env) (al : aldap) (ls : struct_ldapc_search)
    (inbox : List (Option aldap_message)) (id : Int)
    (h : Event.aldap_parse Site.search id none ∈ (ldapc_search env al ls inbox).trace) :
    (ldapc_search env al ls inbox).ret = 0 ∧
    (∃ al1, (ldapc_search env al ls inbox).ldap_al = some al1) ∧
    closes (ldapc_search env al ls inbox).trace = 0 ∧
    ∃ pre, (ldapc_search env al ls inbox).trace =
      pre ++ [Event.aldap_parse Site.search id none] := by
  unfold ldapc_search at h ⊢
  split_ifs at h ⊢ with h0
  · simp at h
  · simp only [Ret.after_trace, List.mem_append, List.mem_singleton, reduceCtorEq,
      false_or] at h
    obtain ⟨i1, i2, i3, pre, i4⟩ :=
      ldapc_search_loop_null env ls inbox (aldap_request env al).2 none id h
    refine ⟨i1, i2, ?_, ?_⟩
    · rw [Ret.after_trace, closes_append, i3]
      rfl
    · rw [Ret.after_trace, i4, ← List.append_assoc]
      exact ⟨_, rfl⟩

/-- Witness of C10: one entry arrives, then `aldap_parse` returns `NULL`. -/
theorem ldapc_search_parse_null_witness :
    Event.aldap_parse Site.search 1 none ∈
      (ldapc_search env_ok { msgid := 0 } (search_all "") [some entry_a]).trace ∧
    (ldapc_search env_ok { msgid := 0 } (search_all "") [some entry_a]).ret = 0 ∧
    (∃ al1, (ldapc_search env_ok { msgid := 0 } (search_all "") [some entry_a]).ldap_al =
      some al1) ∧
    closes (ldapc_search env_ok { msgid := 0 } (search_all "") [some entry_a]).trace = 0 ∧
    ∃ pre, (ldapc_search env_ok { msgid := 0 } (search_all "") [some entry_a]).trace =
      pre ++ [Event.aldap_parse Site.search 1 none] :=
  ⟨by decide,
   ldapc_search_parse_null env_ok { msgid := 0 } (search_all "") [some entry_a] 1 (by decide)⟩

end Ldapclient
